import Mathlib

/-!
# Verification of the InPost email extraction and code-matching pipeline

Shallow embedding of `src/backend/src/services/emailScraper.ts` (extractors,
registry lookup, reconciliation) together with the parts of its environment
the claims need.  JavaScript regular expressions are modelled by a small
backtracking engine over an atom language that covers exactly the constructs
appearing in the source patterns (character classes with greedy/lazy bounded
quantifiers, word boundaries, end anchor, lookahead, alternation, bounded
group repetition, one capture group).  JS `String.prototype.match` semantics
are modelled faithfully, including the global-flag behaviour where the result
array holds whole-match strings (so `match[1]` is the second occurrence, not
the capture group).
-/

/-- JS `\s` (ASCII range plus NBSP, the characters relevant to these emails). -/
def jsWs (c : Char) : Bool :=
  c == ' ' || c == '\t' || c == '\n' || c == '\r' || c == '\x0b' || c == '\x0c' || c == '\xa0'

/-- JS `\w` (word character): `[A-Za-z0-9_]`. -/
def wordChar (c : Char) : Bool :=
  c.isAlphanum || c == '_'

/-- JS truthiness of an optional string (`undefined`/`null` and `""` are falsy). -/
def jsTruthyS : Option String → Bool
  | none => false
  | some s => !(s == "")

/-- JS `String.prototype.trim` on a character list. -/
def jsTrim (l : List Char) : List Char :=
  ((l.dropWhile jsWs).reverse.dropWhile jsWs).reverse

/-- Strip whitespace, modelling `.replace(/\s+/g, '')`. -/
def stripJsWs (l : List Char) : List Char :=
  l.filter (fun c => !(jsWs c))

/-- Regex atoms.  A pattern is a `List RAtom`; the one capture group of each
source pattern is delimited by `openG`/`closeG`. -/
inductive RAtom : Type where
  | cls (p : Char → Bool) (mn : Nat) (mx : Option Nat) (lz : Bool)
  | bnd
  | eos
  | look (sub : List RAtom)
  | alt (subs : List (List RAtom))
  | repB (sub : List RAtom) (mn : Nat) (mx : Nat)
  | openG
  | closeG

mutual

/-- Size of an atom; every recursive call of the matcher strictly decreases the
total size of its atom list, so `lsize + 1` fuel always suffices. -/
def asize : RAtom → Nat
  | RAtom.cls _ _ _ _ => 1
  | RAtom.bnd => 1
  | RAtom.eos => 1
  | RAtom.openG => 1
  | RAtom.closeG => 1
  | RAtom.look sub => 1 + lsize sub
  | RAtom.alt subs => 1 + llsize subs
  | RAtom.repB sub _ mx => 1 + (mx + 1) * (1 + lsize sub)

/-- Size of an atom list. -/
def lsize : List RAtom → Nat
  | [] => 0
  | a :: rest => asize a + lsize rest

/-- Size of a list of alternatives. -/
def llsize : List (List RAtom) → Nat
  | [] => 0
  | l :: rest => 1 + lsize l + llsize rest

end

/-- Matcher state: `prev` is the character just before the current position
(for `\b`), `rem` the remaining input, `gAcc` an open capture accumulator,
`g1` the completed capture of group 1. -/
structure MSt where
  prev : Option Char
  rem : List Char
  gAcc : Option (List Char)
  g1 : Option (List Char)

/-- Word-character test on an optional character (out of range counts as non-word). -/
def isWordO : Option Char → Bool
  | none => false
  | some c => wordChar c

/-- JS `\b`: exactly one side of the position is a word character. -/
def atBoundary (st : MSt) : Bool :=
  isWordO st.prev != isWordO st.rem.head?

/-- Consume `k` characters from the state, updating `prev` and the capture
accumulator. -/
def consume (st : MSt) (k : Nat) : MSt :=
  { prev := if k = 0 then st.prev else st.rem.get? (k - 1)
    rem := st.rem.drop k
    gAcc := match st.gAcc with
      | some a => some (a ++ st.rem.take k)
      | none => none
    g1 := st.g1 }

/-- Candidate consumption counts for a class quantifier, in backtracking
priority order (greedy: longest first; lazy: shortest first). -/
def countsList (mn hi : Nat) (lz : Bool) : List Nat :=
  if hi < mn then []
  else
    let asc := (List.range (hi + 1 - mn)).map (fun i => mn + i)
    if lz then asc else asc.reverse

/-- Backtracking matcher.  Tries to match the atom list at the current
position; returns the state after the first (highest-priority) successful
match of the whole list.  Fuel only bounds recursion depth; since every
recursive call strictly decreases `lsize` of the atom-list argument,
`lsize atoms + 1` fuel is always enough. -/
def runA : Nat → List RAtom → MSt → Option MSt
  | 0, _, _ => none
  | _ + 1, [], st => some st
  | fuel + 1, a :: rest, st =>
    match a with
    | RAtom.cls p mn mx lz =>
      let runMax := (st.rem.takeWhile p).length
      let hi := match mx with
        | some m => min m runMax
        | none => runMax
      (countsList mn hi lz).findSome? (fun k => runA fuel rest (consume st k))
    | RAtom.bnd => if atBoundary st then runA fuel rest st else none
    | RAtom.eos => if st.rem.isEmpty then runA fuel rest st else none
    | RAtom.look sub =>
      match runA fuel sub st with
      | some _ => runA fuel rest st
      | none => none
    | RAtom.alt subs => subs.findSome? (fun sub => runA fuel (sub ++ rest) st)
    | RAtom.repB sub mn mx =>
      match mx with
      | 0 => if mn = 0 then runA fuel rest st else none
      | mxp + 1 =>
        match runA fuel (sub ++ RAtom.repB sub (mn - 1) mxp :: rest) st with
        | some r => some r
        | none => if mn = 0 then runA fuel rest st else none
    | RAtom.openG => runA fuel rest { st with gAcc := some [] }
    | RAtom.closeG => runA fuel rest { st with g1 := st.gAcc, gAcc := none }

/-- Run the matcher at one position with sufficient fuel. -/
def runTop (atoms : List RAtom) (st : MSt) : Option MSt :=
  runA (lsize atoms + 1) atoms st

/-- Leftmost match: try each start position from left to right.  Returns the
suffix at which the match started together with the final state. -/
def scanMatch : List RAtom → Option Char → List Char → Option (List Char × MSt)
  | atoms, prev, [] =>
    match runTop atoms { prev := prev, rem := [], gAcc := none, g1 := none } with
    | some st => some (([] : List Char), st)
    | none => none
  | atoms, prev, c :: rest =>
    match runTop atoms { prev := prev, rem := c :: rest, gAcc := none, g1 := none } with
    | some st => some (c :: rest, st)
    | none => scanMatch atoms (some c) rest

/-- JS `text.match(re)` for a non-global regex followed by the source's
`match && match[1]` test: the first capture group of the leftmost match,
`none` when there is no match or the capture is empty (falsy). -/
def jsMatch1 (atoms : List RAtom) (s : List Char) : Option (List Char) :=
  match scanMatch atoms none s with
  | some (_, st) =>
    match st.g1 with
    | some g => if g.isEmpty then none else some g
    | none => none
  | none => none

/-- All matches of a global regex, as whole-match strings (JS
`text.match(/re/g)`), scanning left to right without overlap. -/
def jsMatchAll : Nat → List RAtom → Option Char → List Char → List (List Char)
  | 0, _, _, _ => []
  | fuel + 1, atoms, prev, s =>
    match scanMatch atoms prev s with
    | none => []
    | some (start, st) =>
      let matched := start.take (start.length - st.rem.length)
      if matched.isEmpty then
        match st.rem with
        | [] => [matched]
        | c :: rest => matched :: jsMatchAll fuel atoms (some c) rest
      else matched :: jsMatchAll fuel atoms st.prev st.rem

/-- JS `text.match(re)` for a global regex followed by `match && match[1]`:
the result array holds whole matches, so `match[1]` is the SECOND occurrence
(and is absent when the pattern matches fewer than two times). -/
def jsMatchG1 (atoms : List RAtom) (s : List Char) : Option (List Char) :=
  match jsMatchAll (s.length + 1) atoms none s with
  | _ :: m2 :: _ => if m2.isEmpty then none else some m2
  | _ => none

/-- The source's pattern loop: first pattern whose `match[1]` is truthy wins.
The boolean marks the global flag. -/
def runPatterns : List (Bool × List RAtom) → List Char → Option (List Char)
  | [], _ => none
  | (g, atoms) :: rest, s =>
    match (if g then jsMatchG1 atoms s else jsMatch1 atoms s) with
    | some r => some r
    | none => runPatterns rest s

/-- Global replace (JS `str.replace(/re/g, repl)` with a plain replacement). -/
def replAll : Nat → List RAtom → List Char → Option Char → List Char → List Char
  | 0, _, _, _, s => s
  | fuel + 1, atoms, repl, prev, s =>
    match runTop atoms { prev := prev, rem := s, gAcc := none, g1 := none } with
    | some st =>
      if st.rem.length < s.length then
        repl ++ replAll fuel atoms repl st.prev st.rem
      else
        match s with
        | [] => repl
        | c :: rest => repl ++ c :: replAll fuel atoms repl (some c) rest
    | none =>
      match s with
      | [] => []
      | c :: rest => c :: replAll fuel atoms repl (some c) rest

/-- Run a global replace with sufficient fuel. -/
def replAllTop (atoms : List RAtom) (repl : List Char) (s : List Char) : List Char :=
  replAll (s.length + 1) atoms repl none s

/-! ## The source's regex patterns -/

/-- A case-insensitive literal, for the `i`-flagged source patterns. -/
def ciLit (s : String) : List RAtom :=
  s.data.map (fun c => RAtom.cls (fun d => d.toLower == c.toLower) 1 (some 1) false)

/-- Character class `[_\s.]`. -/
def clsUnderscoreWsDot (c : Char) : Bool :=
  c == '_' || jsWs c || c == '.'

/-- Character class `[_\s]`. -/
def clsUnderscoreWs (c : Char) : Bool :=
  c == '_' || jsWs c

/-- Character class `[:\s]`. -/
def clsColonWs (c : Char) : Bool :=
  c == ':' || jsWs c

/-- Character class `[A-Z]` under the `i` flag. -/
def clsAlphaCI (c : Char) : Bool :=
  c.isAlpha

/-- Character class `[A-Z0-9]` under the `i` flag. -/
def clsAlnumCI (c : Char) : Bool :=
  c.isAlphanum

/-- Character class `[A-Z]` without the `i` flag: uppercase only. -/
def clsAlphaUC (c : Char) : Bool :=
  c.isUpper

/-- Character class `[A-Z0-9]` without the `i` flag: uppercase or digit. -/
def clsAlnumUC (c : Char) : Bool :=
  c.isUpper || c.isDigit

/-- Character class `[0-9]` / `\d`. -/
def clsDigit (c : Char) : Bool :=
  c.isDigit

/-- `extractTrackingNumber`'s pattern list (source lines 107-114).  The last
two patterns carry the global flag and, unlike the first four, no `i` flag:
their classes are uppercase-only. -/
def trackingNumberPatterns : List (Bool × List RAtom) :=
  [ (false, ciLit "parcel" ++ [RAtom.cls clsUnderscoreWsDot 0 none false] ++ ciLit "no" ++
      [RAtom.cls (fun c => c == '.') 0 (some 1) false, RAtom.cls jsWs 0 none false,
       RAtom.openG, RAtom.cls clsAlphaCI 2 (some 3) false,
       RAtom.cls clsDigit 12 (some 21) false, RAtom.closeG]),
    (false, ciLit "parcel" ++ [RAtom.cls clsUnderscoreWsDot 0 none false] ++ ciLit "number" ++
      [RAtom.cls clsColonWs 0 none false,
       RAtom.openG, RAtom.cls clsAlphaCI 2 (some 3) false,
       RAtom.cls clsDigit 12 (some 21) false, RAtom.closeG]),
    (false, ciLit "tracking" ++ [RAtom.cls clsUnderscoreWsDot 0 none false] ++ ciLit "number" ++
      [RAtom.cls clsColonWs 0 none false,
       RAtom.openG, RAtom.cls clsAlnumCI 12 (some 24) false, RAtom.closeG]),
    (false, ciLit "/tracking/" ++
      [RAtom.openG, RAtom.cls clsAlnumCI 12 (some 24) false, RAtom.closeG]),
    (true, [RAtom.bnd, RAtom.openG, RAtom.cls clsAlphaUC 2 (some 3) false,
       RAtom.cls clsDigit 12 (some 21) false, RAtom.closeG, RAtom.bnd]),
    (true, [RAtom.bnd, RAtom.openG, RAtom.cls clsAlnumUC 20 (some 24) false,
       RAtom.closeG, RAtom.bnd]) ]

/-- `extractTrackingNumber` (source lines 97-124): first pattern whose
`match[1]` is truthy, upper-cased, whitespace stripped. -/
def extractTrackingNumber (text : String) : Option String :=
  match runPatterns trackingNumberPatterns text.data with
  | some g => some (String.mk (stripJsWs (g.map Char.toUpper)))
  | none => none

/-- `extractPickupCode`'s pattern list (source lines 138-144); the last
pattern is global. -/
def pickupCodePatterns : List (Bool × List RAtom) :=
  [ (false, ciLit "collection" ++ [RAtom.cls clsUnderscoreWs 0 none false] ++ ciLit "code" ++
      [RAtom.cls clsColonWs 0 none false,
       RAtom.openG, RAtom.cls clsDigit 6 (some 6) false, RAtom.closeG]),
    (false, ciLit "pickup" ++ [RAtom.cls clsUnderscoreWs 0 none false] ++ ciLit "code" ++
      [RAtom.cls clsColonWs 0 none false,
       RAtom.openG, RAtom.cls clsDigit 6 (some 6) false, RAtom.closeG]),
    (false, ciLit "code" ++
      [RAtom.cls clsColonWs 0 none false,
       RAtom.openG, RAtom.cls clsDigit 6 (some 6) false, RAtom.closeG]),
    (false, ciLit "your" ++ [RAtom.cls clsUnderscoreWs 0 none false] ++ ciLit "code" ++
      [RAtom.cls clsColonWs 0 none false,
       RAtom.openG, RAtom.cls clsDigit 6 (some 6) false, RAtom.closeG]),
    (true, [RAtom.bnd, RAtom.openG, RAtom.cls clsDigit 6 (some 6) false,
       RAtom.closeG, RAtom.bnd]) ]

/-- `extractPickupCode` (source lines 130-154). -/
def extractPickupCode (text : String) : Option String :=
  match runPatterns pickupCodePatterns text.data with
  | some g => some (String.mk g)
  | none => none

/-- The send-code capture `(\d{3}\s*\d{3}\s*\d{3})`. -/
def sendCodeGroup : List RAtom :=
  [RAtom.openG, RAtom.cls clsDigit 3 (some 3) false, RAtom.cls jsWs 0 none false,
   RAtom.cls clsDigit 3 (some 3) false, RAtom.cls jsWs 0 none false,
   RAtom.cls clsDigit 3 (some 3) false, RAtom.closeG]

/-- `extractSendCode`'s pattern list (source lines 168-173); the last pattern
(`(\d{3}\s+\d{3}\s+\d{3})`) is global. -/
def sendCodePatterns : List (Bool × List RAtom) :=
  [ (false, ciLit "code" ++ [RAtom.cls jsWs 0 none false] ++ ciLit "instead" ++
      [RAtom.cls jsWs 0 none false] ++ sendCodeGroup),
    (false, ciLit "send" ++ [RAtom.cls clsUnderscoreWs 0 none false] ++ ciLit "code" ++
      [RAtom.cls clsColonWs 0 none false] ++ sendCodeGroup),
    (false, ciLit "drop" ++ [RAtom.cls clsUnderscoreWs 0 none false] ++ ciLit "off" ++
      [RAtom.cls clsUnderscoreWs 0 none false] ++ ciLit "code" ++
      [RAtom.cls clsColonWs 0 none false] ++ sendCodeGroup),
    (true, [RAtom.openG, RAtom.cls clsDigit 3 (some 3) false, RAtom.cls jsWs 1 none false,
       RAtom.cls clsDigit 3 (some 3) false, RAtom.cls jsWs 1 none false,
       RAtom.cls clsDigit 3 (some 3) false, RAtom.closeG]) ]

/-- `extractSendCode` (source lines 161-184): spaces removed before storage. -/
def extractSendCode (text : String) : Option String :=
  match runPatterns sendCodePatterns text.data with
  | some g => some (String.mk (stripJsWs g))
  | none => none

/-- Character class `[A-Za-z0-9\s\-.,()]` of the shop patterns. -/
def clsShop (c : Char) : Bool :=
  c.isAlphanum || jsWs c || c == '-' || c == '.' || c == ',' || c == '(' || c == ')'

/-- The shop patterns' lookahead `(?=\s+(?:...)|\s*$)` with the given labels. -/
def shopLookahead (labels : List String) : RAtom :=
  RAtom.look
    [RAtom.alt
      ([RAtom.cls jsWs 1 none false, RAtom.alt (labels.map ciLit)] ::
       [[RAtom.cls jsWs 0 none false, RAtom.eos]])]

/-- First shop pattern of `extractLockerId` (source line 193). -/
def shopPattern1 : List RAtom :=
  ciLit "inpost" ++ [RAtom.cls jsWs 1 none false] ++ ciLit "shop" ++
  [RAtom.cls jsWs 0 none false] ++ ciLit "-" ++ [RAtom.cls jsWs 0 none false] ++
  [RAtom.openG, RAtom.cls clsShop 1 none true, RAtom.closeG,
   shopLookahead ["Opening", "Recipient", "What\x27s", "Get", "PHONE", "Collect by", "No need"]]

/-- Second shop pattern of `extractLockerId` (source line 199). -/
def shopPattern2 : List RAtom :=
  ciLit "delivered" ++ [RAtom.cls jsWs 1 none false] ++ ciLit "to" ++
  [RAtom.cls (fun c => c == ':') 0 (some 1) false, RAtom.cls jsWs 1 none false] ++
  ciLit "inpost" ++ [RAtom.cls jsWs 1 none false] ++ ciLit "shop" ++
  [RAtom.cls jsWs 1 none false] ++ ciLit "inpost" ++ [RAtom.cls jsWs 1 none false] ++
  ciLit "shop" ++ [RAtom.cls jsWs 0 none false] ++ ciLit "-" ++
  [RAtom.cls jsWs 0 none false] ++
  [RAtom.openG, RAtom.cls clsShop 1 none true, RAtom.closeG,
   shopLookahead ["Opening", "Recipient", "What\x27s", "Get"]]

/-- Locker-code patterns of `extractLockerId` (source lines 205-209). -/
def lockerPatterns : List (Bool × List RAtom) :=
  [ (false, ciLit "locker" ++ [RAtom.cls clsColonWs 1 none false] ++
      [RAtom.openG, RAtom.cls clsAlnumCI 5 (some 8) false, RAtom.closeG]),
    (false, ciLit "paczkomat" ++ [RAtom.cls clsColonWs 1 none false] ++
      [RAtom.openG, RAtom.cls clsAlnumCI 5 (some 8) false, RAtom.closeG]),
    (false, ciLit "at" ++ [RAtom.cls clsUnderscoreWs 1 none false] ++ ciLit "locker" ++
      [RAtom.cls clsUnderscoreWs 1 none false] ++
      [RAtom.openG, RAtom.cls clsAlnumCI 5 (some 8) false, RAtom.closeG]) ]

/-- A shop match is returned trimmed, and only when the trim is truthy. -/
def shopResult (atoms : List RAtom) (s : List Char) : Option (List Char) :=
  match jsMatch1 atoms s with
  | some g =>
    let t := jsTrim g
    if t.isEmpty then none else some t
  | none => none

/-- `extractLockerId` (source lines 190-216). -/
def extractLockerId (text : String) : Option String :=
  let s := text.data
  match shopResult shopPattern1 s with
  | some t => some (String.mk t)
  | none =>
    match shopResult shopPattern2 s with
    | some t => some (String.mk t)
    | none =>
      match runPatterns lockerPatterns s with
      | some g => some (String.mk (g.map Char.toUpper))
      | none => none

/-- The group `([A-Z][a-z]+(?:\s+[A-Z][a-z]+)+)` under the `i` flag; the
repetition bound `n` is any upper bound on the possible iteration count
(the input length suffices, as each iteration consumes characters). -/
def recipientGroup (n : Nat) : List RAtom :=
  [RAtom.openG, RAtom.cls clsAlphaCI 1 (some 1) false, RAtom.cls clsAlphaCI 1 none false,
   RAtom.repB [RAtom.cls jsWs 1 none false, RAtom.cls clsAlphaCI 1 (some 1) false,
     RAtom.cls clsAlphaCI 1 none false] 1 n,
   RAtom.closeG]

/-- `extractRecipientName`'s pattern list (source lines 228-231). -/
def recipientPatterns (n : Nat) : List (Bool × List RAtom) :=
  [ (false, ciLit "to:" ++ [RAtom.cls jsWs 0 none false] ++ recipientGroup n),
    (false, ciLit "recipient" ++ [RAtom.cls clsColonWs 0 none false] ++ recipientGroup n) ]

/-- `extractRecipientName` (source lines 222-241): result is trimmed. -/
def extractRecipientName (text : String) : Option String :=
  match runPatterns (recipientPatterns text.length) text.data with
  | some g => some (String.mk (jsTrim g))
  | none => none

/-- `/<style[^>]*>[\s\S]*?<\/style>/gi` and friends. -/
def tagBlockPat (tag : String) : List RAtom :=
  ciLit ("<" ++ tag) ++ [RAtom.cls (fun c => !(c == '>')) 0 none false] ++ ciLit ">" ++
  [RAtom.cls (fun _ => true) 0 none true] ++ ciLit ("</" ++ tag ++ ">")

/-- `/<[^>]*>/g`. -/
def anyTagPat : List RAtom :=
  ciLit "<" ++ [RAtom.cls (fun c => !(c == '>')) 0 none false] ++ ciLit ">"

/-- The HTML cleaning chain at the top of `processEmail` (source lines
354-360): drop style/script/head blocks, strip remaining tags to spaces,
normalise whitespace, trim. -/
def cleanHtml (html : String) : String :=
  let s0 := html.data
  let s1 := replAllTop (tagBlockPat "style") [] s0
  let s2 := replAllTop (tagBlockPat "script") [] s1
  let s3 := replAllTop (tagBlockPat "head") [] s2
  let s4 := replAllTop anyTagPat [' '] s3
  let s5 := replAllTop [RAtom.cls jsWs 1 none false] [' '] s4
  String.mk (jsTrim s5)

/-! ## Data model: shipment registry -/

/-- One row of `tracking_numbers` (the fields this pipeline touches). -/
structure ShipmentRecord where
  id : Nat
  tracking_number : String
  user_id : Option Nat
  telegram_chat_id : Option Int
  pickup_code : Option String
  locker_id : Option String
  pickup_code_sent_at : Option Nat
  send_code : Option String
  recipient_name : Option String
  send_code_sent_at : Option Nat
  email_used : Option String
  email_received_at : Option Nat
  send_email_received_at : Option Nat
deriving DecidableEq, Repr

/-- The `tracking_numbers` table. -/
abbrev Registry := List ShipmentRecord

/-- The projection `matchTrackingNumber` returns (source lines 249-255). -/
structure MatchRow where
  tracking_id : Nat
  user_id : Option Nat
  telegram_chat_id : Option Int
  pickup_code_sent_at : Option Nat
  send_code_sent_at : Option Nat
deriving DecidableEq, Repr

/-- `SELECT ... FROM tracking_numbers WHERE tracking_number = $1`. -/
def trackingQuery (reg : Registry) (tn : String) : List ShipmentRecord :=
  reg.filter (fun r => r.tracking_number == tn)

/-- Projection of one row into the match result. -/
def projRow (r : ShipmentRecord) : MatchRow :=
  { tracking_id := r.id
    user_id := r.user_id
    telegram_chat_id := r.telegram_chat_id
    pickup_code_sent_at := r.pickup_code_sent_at
    send_code_sent_at := r.send_code_sent_at }

/-- `matchTrackingNumber` (source lines 249-282): `null` when zero rows match
and, critically, also when more than one row matches. -/
def matchTrackingNumber (reg : Registry) (tn : String) : Option MatchRow :=
  match trackingQuery reg tn with
  | [r] => some (projRow r)
  | _ => none

/-- `updateTrackingWithPickupCode` (source lines 287-300). -/
def updateTrackingWithPickupCode (reg : Registry) (trackingId : Nat) (pickupCode : String)
    (lockerId : Option String) (now : Nat) : Registry :=
  reg.map (fun r =>
    if r.id = trackingId then
      { r with pickup_code := some pickupCode, locker_id := lockerId,
               email_received_at := some now }
    else r)

/-- `markPickupCodeSent` (source lines 305-312). -/
def markPickupCodeSent (reg : Registry) (trackingId : Nat) (now : Nat) : Registry :=
  reg.map (fun r =>
    if r.id = trackingId then { r with pickup_code_sent_at := some now } else r)

/-- `updateTrackingWithSendCode` (source lines 317-330). -/
def updateTrackingWithSendCode (reg : Registry) (trackingId : Nat) (sendCode : String)
    (recipientName : Option String) (now : Nat) : Registry :=
  reg.map (fun r =>
    if r.id = trackingId then
      { r with send_code := some sendCode, recipient_name := recipientName,
               send_email_received_at := some now }
    else r)

/-- `markSendCodeSent` (source lines 335-342). -/
def markSendCodeSent (reg : Registry) (trackingId : Nat) (now : Nat) : Registry :=
  reg.map (fun r =>
    if r.id = trackingId then { r with send_code_sent_at := some now } else r)

/-- A fresh primary key, as the database serial would assign. -/
def freshId (reg : Registry) : Nat :=
  (reg.map (fun r => r.id)).foldr max 0 + 1

/-- Modelled from the spec: `createTrackingNumber` lives in
`src/backend/src/models/tracking.ts`, which is not in the source tree (only
its caller is).  Per spec section 4.3 step 3, it creates a new
`ShipmentRecord` with the tracking number set, owner and channel absent, and
the source mailbox address recorded as provenance; the caller invokes it as
`createTrackingNumber(trackingNumber, null, null, null, emailAccount)`.  The
database assigns a fresh id. -/
def createTrackingNumber (reg : Registry) (tn : String) (emailUsed : String) : Registry :=
  reg ++ [{ id := freshId reg
            tracking_number := tn
            user_id := none
            telegram_chat_id := none
            pickup_code := none
            locker_id := none
            pickup_code_sent_at := none
            send_code := none
            recipient_name := none
            send_code_sent_at := none
            email_used := some emailUsed
            email_received_at := none
            send_email_received_at := none }]

/-- One invocation of `sendPickupCodeToTelegram` with its arguments
(source lines 436-442). -/
structure TelegramCall where
  chat_id : Int
  tracking_number : String
  pickup_code : String
  locker_id : Option String
deriving DecidableEq, Repr

/-- Result of processing one message: the registry afterwards, the delivery
adapter invocations made, and the boolean `processEmail` returns. -/
structure ProcResult where
  registry : Registry
  calls : List TelegramCall
  success : Bool
deriving DecidableEq, Repr

/-- The body of `processEmail` after the extractors have run (source lines
377-469): match (or lazily create) the record, store/deliver the send and
pickup codes, and compute the return value.  The delivery adapter is a
parameter reporting success or failure; `now` stands for
`CURRENT_TIMESTAMP`. -/
def processFacts (adapter : TelegramCall → Bool) (now : Nat) (trackingNumber : String)
    (pickupCode sendCode lockerId recipientName emailAccount : Option String)
    (reg : Registry) : ProcResult :=
  let m0 := matchTrackingNumber reg trackingNumber
  let createNow := m0.isNone && (jsTruthyS pickupCode || jsTruthyS sendCode) &&
    jsTruthyS emailAccount
  let reg1 := if createNow then
      createTrackingNumber reg trackingNumber (emailAccount.getD "")
    else reg
  let m1 := if createNow then matchTrackingNumber reg1 trackingNumber else m0
  match m1 with
  | none => { registry := reg1, calls := [], success := false }
  | some m =>
    let sendStep : Registry × Bool :=
      if jsTruthyS sendCode then
        if m.send_code_sent_at.isSome then (reg1, false)
        else
          (markSendCodeSent
            (updateTrackingWithSendCode reg1 m.tracking_id (sendCode.getD "")
              recipientName now)
            m.tracking_id now, true)
      else (reg1, false)
    let pickStep : Registry × List TelegramCall × Bool :=
      if jsTruthyS pickupCode then
        if m.pickup_code_sent_at.isSome then (sendStep.1, [], false)
        else
          let regU := updateTrackingWithPickupCode sendStep.1 m.tracking_id
            (pickupCode.getD "") lockerId now
          match m.telegram_chat_id with
          | some chat =>
            let call : TelegramCall :=
              { chat_id := chat, tracking_number := trackingNumber,
                pickup_code := pickupCode.getD "", locker_id := lockerId }
            if adapter call then (markPickupCodeSent regU m.tracking_id now, [call], true)
            else (regU, [call], false)
          | none => (markPickupCodeSent regU m.tracking_id now, [], true)
      else (sendStep.1, [], false)
    let processedSomething := sendStep.2 || pickStep.2.2
    if !(jsTruthyS sendCode) && !(jsTruthyS pickupCode) then
      { registry := pickStep.1, calls := pickStep.2.1, success := false }
    else if m.send_code_sent_at.isSome || m.pickup_code_sent_at.isSome then
      { registry := pickStep.1, calls := pickStep.2.1, success := true }
    else
      { registry := pickStep.1, calls := pickStep.2.1, success := processedSomething }

/-- `processEmail` (source lines 352-470): clean the HTML, combine with the
plain text, extract, and reconcile. -/
def processEmail (adapter : TelegramCall → Bool) (now : Nat)
    (emailText emailHtml : String) (emailAccount : Option String)
    (reg : Registry) : ProcResult :=
  let fullText := emailText ++ " " ++ cleanHtml emailHtml
  match extractTrackingNumber fullText with
  | none => { registry := reg, calls := [], success := false }
  | some tn =>
    if tn = "" then { registry := reg, calls := [], success := false }
    else
      processFacts adapter now tn (extractPickupCode fullText) (extractSendCode fullText)
        (extractLockerId fullText) (extractRecipientName fullText) emailAccount reg

/-- One fetched message of a batch (source lines 481-507). -/
structure EmailMsg where
  uid : Option Nat
  text : String
  html : String
deriving Repr

/-- JS truthiness of the optional uid (`attrs.uid`; `0` is falsy). -/
def uidTruthy : Option Nat → Bool
  | none => false
  | some u => !(u == 0)

/-- Sequential idealization of `processEmails` (source lines 476-535): each
message is processed in order against the evolving registry; the uids of
messages whose outcome was true are collected and marked read in one batch at
the end.  (The real code collects them from asynchronous body handlers and
marks them in the fetch end handler; this model assumes every per-message
decision completes before the batch marking.) -/
def processEmails (adapter : TelegramCall → Bool) (now : Nat) (emailAccount : String) :
    List EmailMsg → Registry → Registry × List TelegramCall × List Nat
  | [], reg => (reg, [], [])
  | msg :: rest, reg =>
    let r := processEmail adapter now msg.text msg.html (some emailAccount) reg
    let tail := processEmails adapter now emailAccount rest r.registry
    (tail.1, r.calls ++ tail.2.1,
     (if r.success && uidTruthy msg.uid then [msg.uid.getD 0] else []) ++ tail.2.2)

/-! ## Demo fixtures for witnesses and counterexamples -/

/-- A record whose pickup code was already delivered and stamped. -/
def demoRecSent : ShipmentRecord :=
  { id := 1, tracking_number := "JJD0002233573349014", user_id := some 4,
    telegram_chat_id := some 77, pickup_code := some "247089",
    locker_id := some "Co-operative NR13 5LP Norwich", pickup_code_sent_at := some 3,
    send_code := none, recipient_name := none, send_code_sent_at := none,
    email_used := none, email_received_at := some 3, send_email_received_at := none }

/-- A matched record with no codes yet and a Telegram chat linked. -/
def demoRecPlain : ShipmentRecord :=
  { id := 1, tracking_number := "JJD0002233573349014", user_id := some 4,
    telegram_chat_id := some 77, pickup_code := none, locker_id := none,
    pickup_code_sent_at := none, send_code := none, recipient_name := none,
    send_code_sent_at := none, email_used := none, email_received_at := none,
    send_email_received_at := none }

/-- A second record with the same tracking number (ambiguity fixture,
inserted bypassing the uniqueness constraint, as the spec's scenario C
describes). -/
def demoRecPlain2 : ShipmentRecord :=
  { demoRecPlain with id := 2 }

/-- An ambiguous registry: two records share one tracking number. -/
def ambReg : Registry :=
  [demoRecPlain, demoRecPlain2]

/-- A record whose drop-off code was recorded in an earlier scan. -/
def demoRecSendSent : ShipmentRecord :=
  { demoRecPlain with
    send_code := some "344924512"
    send_code_sent_at := some 2
    send_email_received_at := some 2 }

/-- The field update `updateTrackingWithPickupCode` applies to the targeted
row. -/
def pickupApplied (r : ShipmentRecord) (pc : String) (lid : Option String)
    (now : Nat) : ShipmentRecord :=
  { r with pickup_code := some pc, locker_id := lid, email_received_at := some now }

/-- The field update `updateTrackingWithSendCode` applies to the targeted
row. -/
def sendApplied (r : ShipmentRecord) (sc : String) (rn : Option String)
    (now : Nat) : ShipmentRecord :=
  { r with send_code := some sc, recipient_name := rn, send_email_received_at := some now }

/-- The field update `markSendCodeSent` applies to the targeted row. -/
def markSendApplied (r : ShipmentRecord) (now : Nat) : ShipmentRecord :=
  { r with send_code_sent_at := some now }

/-- The field update `markPickupCodeSent` applies to the targeted row. -/
def markPickupApplied (r : ShipmentRecord) (now : Nat) : ShipmentRecord :=
  { r with pickup_code_sent_at := some now }

/-! ## Helper lemmas -/

theorem jsTruthyS_none : jsTruthyS none = false := rfl

theorem jsTruthyS_some (s : String) : jsTruthyS (some s) = !(s == "") := rfl


theorem trackingQuery_append (l₁ l₂ : Registry) (tn : String) :
    trackingQuery (l₁ ++ l₂) tn = trackingQuery l₁ tn ++ trackingQuery l₂ tn :=
  List.filter_append ..

theorem le_foldr_max (l : List Nat) (n : Nat) (h : n ∈ l) : n ≤ l.foldr max 0 := by
  induction l with
  | nil => cases h
  | cons a t ih =>
    rcases List.mem_cons.mp h with h | h
    · simp [h, le_max_iff]
    · exact le_trans (ih h) (le_max_right a _)

theorem freshId_gt (reg : Registry) (r : ShipmentRecord) (h : r ∈ reg) :
    r.id < freshId reg := by
  have hm : r.id ∈ reg.map (fun x => x.id) := List.mem_map_of_mem _ h
  have := le_foldr_max _ _ hm
  unfold freshId
  omega

theorem trackingQuery_map (reg : Registry) (tn : String) (f : ShipmentRecord → ShipmentRecord)
    (hf : ∀ r, (f r).tracking_number = r.tracking_number) :
    trackingQuery (reg.map f) tn = (trackingQuery reg tn).map f := by
  unfold trackingQuery
  rw [List.filter_map]
  congr 1
  apply List.filter_congr
  intro x _
  simp [Function.comp, hf]

theorem matchTrackingNumber_eq_some {reg : Registry} {tn : String} {m : MatchRow}
    (h : matchTrackingNumber reg tn = some m) :
    ∃ r, trackingQuery reg tn = [r] ∧ m = projRow r := by
  unfold matchTrackingNumber at h
  rcases hq : trackingQuery reg tn with _ | ⟨r, _ | ⟨r2, t⟩⟩ <;> rw [hq] at h <;>
    simp_all

theorem matchTrackingNumber_singleton {reg : Registry} {tn : String} {r : ShipmentRecord}
    (h : trackingQuery reg tn = [r]) : matchTrackingNumber reg tn = some (projRow r) := by
  unfold matchTrackingNumber
  rw [h]

/-! ## C1 -/

/-- C1: at-most-once delivery.  If the matched record's `pickup_code_sent_at`
is already set, running `processFacts` with the same facts (the tracking
number and a pickup code) makes no delivery-adapter call and leaves the
registry — in particular all pickup-code fields — completely unchanged, while
still reporting the message as processed. -/
theorem pickup_at_most_once (adapter : TelegramCall → Bool) (now : Nat)
    (tn pc : String) (lockerId recipientName emailAccount : Option String)
    (reg : Registry) (m : MatchRow)
    (hm : matchTrackingNumber reg tn = some m)
    (hsent : m.pickup_code_sent_at.isSome = true)
    (hpc : pc ≠ "") :
    processFacts adapter now tn (some pc) none lockerId recipientName emailAccount reg
      = { registry := reg, calls := [], success := true } := by
  unfold processFacts
  rw [hm]
  simp [jsTruthyS, hsent, hpc]

/-- Witness for C1 at a concrete input. -/
theorem pickup_at_most_once_witness :
    matchTrackingNumber [demoRecSent] "JJD0002233573349014" = some (projRow demoRecSent) ∧
    processFacts (fun _ => true) 9 "JJD0002233573349014" (some "247089") none none none
        (some "box@example.com") [demoRecSent]
      = { registry := [demoRecSent], calls := [], success := true } :=
  ⟨by decide,
   pickup_at_most_once (fun _ => true) 9 "JJD0002233573349014" "247089" none none
     (some "box@example.com") [demoRecSent] (projRow demoRecSent) (by decide) (by decide)
     (by decide)⟩

/-! ## C2 -/

/-- The delivery adapter is only reachable from the pickup branch: without a
truthy pickup code, `processFacts` makes no adapter call, whatever the
registry holds. -/
theorem calls_nil_of_no_pickup (adapter : TelegramCall → Bool) (now : Nat) (tn : String)
    (pickupCode sendCode lockerId recipientName emailAccount : Option String)
    (reg : Registry) (hpc : jsTruthyS pickupCode = false) :
    (processFacts adapter now tn pickupCode sendCode lockerId recipientName emailAccount
        reg).calls = [] := by
  unfold processFacts
  rcases hm0 : matchTrackingNumber reg tn with _ | m
  · cases hs : jsTruthyS sendCode <;> cases ha : jsTruthyS emailAccount <;>
      simp [hm0, hs, ha, hpc, apply_ite ProcResult.calls] <;>
      rcases hm1 : matchTrackingNumber (createTrackingNumber reg tn (emailAccount.getD ""))
          tn with _ | m <;>
        simp [hm1, apply_ite ProcResult.calls]
  · simp [hm0, hpc, apply_ite ProcResult.calls]

/-- C2: the drop-off (send) code path never invokes the delivery adapter.
For every registry state, processing facts that carry a drop-off code and no
pickup code makes no adapter call; and when the tracking number resolves to a
unique record whose send code is not yet recorded, the code and recipient
name are stored on that record. -/
theorem dropoff_never_delivered (adapter : TelegramCall → Bool) (now : Nat)
    (tn sc : String) (pickupCode lockerId recipientName emailAccount : Option String)
    (reg : Registry)
    (hsc : sc ≠ "")
    (hpc : jsTruthyS pickupCode = false) :
    (processFacts adapter now tn pickupCode (some sc) lockerId recipientName emailAccount
        reg).calls = [] ∧
    (∀ m, matchTrackingNumber reg tn = some m → m.send_code_sent_at = none →
      ∀ r ∈ (processFacts adapter now tn pickupCode (some sc) lockerId recipientName
          emailAccount reg).registry,
        r.id = m.tracking_id → r.send_code = some sc ∧ r.recipient_name = recipientName) := by
  constructor
  · exact calls_nil_of_no_pickup adapter now tn pickupCode (some sc) lockerId recipientName
      emailAccount reg hpc
  · intro m hm hnone r hr hid
    unfold processFacts at hr
    rw [hm] at hr
    simp [jsTruthyS_some, hsc, hpc, hnone, markSendCodeSent, updateTrackingWithSendCode,
      apply_ite ProcResult.registry] at hr
    obtain ⟨r0, hr0, hre⟩ := hr
    by_cases hcase : r0.id = m.tracking_id
    · rw [← hre]
      simp [hcase]
    · rw [← hre] at hid
      simp [hcase] at hid

/-- Witness for C2 at a concrete input (the spec's scenario D facts). -/
theorem dropoff_never_delivered_witness :
    (processFacts (fun _ => true) 9 "JJD0002233573349014" none (some "344924512") none
        (some "Katie Harvey") (some "box@example.com") [demoRecPlain]).calls = [] ∧
    ∀ r ∈ (processFacts (fun _ => true) 9 "JJD0002233573349014" none (some "344924512") none
        (some "Katie Harvey") (some "box@example.com") [demoRecPlain]).registry,
      r.id = 1 → r.send_code = some "344924512" ∧ r.recipient_name = some "Katie Harvey" := by
  have h := dropoff_never_delivered (fun _ => true) 9 "JJD0002233573349014" "344924512"
    none none (some "Katie Harvey") (some "box@example.com") [demoRecPlain]
    (by decide) (by decide)
  exact ⟨h.1, fun r hr hid => h.2 (projRow demoRecPlain) (by decide) (by decide) r hr hid⟩

/-! ## C3 -/

theorem matchTrackingNumber_none_of_two {reg : Registry} {tn : String}
    (h : 2 ≤ (trackingQuery reg tn).length) : matchTrackingNumber reg tn = none := by
  unfold matchTrackingNumber
  rcases hq : trackingQuery reg tn with _ | ⟨r, _ | ⟨r2, t⟩⟩ <;> rw [hq] at h <;> simp_all

theorem trackingQuery_create (reg : Registry) (tn acc : String) :
    ∃ nr, createTrackingNumber reg tn acc = reg ++ [nr] ∧
      trackingQuery (createTrackingNumber reg tn acc) tn = trackingQuery reg tn ++ [nr] ∧
      nr.tracking_number = tn ∧ nr.user_id = none ∧ nr.telegram_chat_id = none ∧
      nr.pickup_code = none ∧ nr.send_code = none ∧ nr.pickup_code_sent_at = none ∧
      nr.send_code_sent_at = none ∧ nr.email_used = some acc ∧ nr.id = freshId reg := by
  refine ⟨_, rfl, ?_, rfl, rfl, rfl, rfl, rfl, rfl, rfl, rfl, rfl⟩
  unfold createTrackingNumber
  rw [trackingQuery_append]
  simp [trackingQuery]

/-- C3 counterexample: with two records sharing the tracking number, an email
carrying that tracking number and a pickup code does NOT leave the registry
as it was — a third, code-less duplicate record is appended (the lazy-create
branch fires because the ambiguous lookup returns the same `null` as
not-found).  This refutes "mutates no record ... identically to the
not-found case": the genuine not-found case stores the pickup code on the
record it creates, the ambiguous case leaves every code unset. -/
theorem ambiguous_match_counterexample :
    2 ≤ (trackingQuery ambReg "JJD0002233573349014").length ∧
    (processFacts (fun _ => true) 9 "JJD0002233573349014" (some "247089") none none none
        (some "box@example.com") ambReg).registry ≠ ambReg ∧
    (processFacts (fun _ => true) 9 "JJD0002233573349014" (some "247089") none none none
        (some "box@example.com") ambReg).registry.length = 3 ∧
    (processFacts (fun _ => true) 9 "JJD0002233573349014" (some "247089") none none none
        (some "box@example.com") []).registry.length = 1 := by
  decide

/-- C3 (amended): with two or more records sharing a tracking number,
resolution is a non-match (no record is picked), and processing an email with
that tracking number and a pickup code makes no adapter call, reports
failure, mutates no existing record and stores no code anywhere — but, when a
code and a source account are present, it appends a fresh code-less duplicate
record instead of leaving the registry untouched. -/
theorem ambiguous_match_safe (adapter : TelegramCall → Bool) (now : Nat) (tn : String)
    (pickupCode sendCode lockerId recipientName emailAccount : Option String)
    (reg : Registry)
    (hamb : 2 ≤ (trackingQuery reg tn).length) :
    matchTrackingNumber reg tn = none ∧
    (processFacts adapter now tn pickupCode sendCode lockerId recipientName emailAccount
        reg).calls = [] ∧
    (processFacts adapter now tn pickupCode sendCode lockerId recipientName emailAccount
        reg).success = false ∧
    (processFacts adapter now tn pickupCode sendCode lockerId recipientName emailAccount
        reg).registry.take reg.length = reg ∧
    ∀ r ∈ (processFacts adapter now tn pickupCode sendCode lockerId recipientName
        emailAccount reg).registry.drop reg.length,
      r.pickup_code = none ∧ r.send_code = none ∧ r.pickup_code_sent_at = none ∧
        r.send_code_sent_at = none := by
  have hnone := matchTrackingNumber_none_of_two hamb
  obtain ⟨nr, hcr, hq, htn, _, _, hpc, hsc, hps, hss, _, _⟩ :=
    trackingQuery_create reg tn (emailAccount.getD "")
  have hnone1 : matchTrackingNumber (createTrackingNumber reg tn (emailAccount.getD "")) tn
      = none := by
    apply matchTrackingNumber_none_of_two
    rw [hq, List.length_append]
    omega
  refine ⟨hnone, ?_⟩
  unfold processFacts
  rw [hnone]
  cases hca : ((jsTruthyS pickupCode || jsTruthyS sendCode) && jsTruthyS emailAccount)
  · simp [hca, List.take_length]
  · rw [hcr] at hnone1
    simp [hca, hnone1, hcr]
    exact ⟨hpc, hsc, hps, hss⟩

/-- Witness for the amended C3 at the concrete ambiguous registry. -/
theorem ambiguous_match_safe_witness :
    2 ≤ (trackingQuery ambReg "JJD0002233573349014").length ∧
    matchTrackingNumber ambReg "JJD0002233573349014" = none ∧
    (processFacts (fun _ => true) 9 "JJD0002233573349014" (some "247089") none none none
        (some "box@example.com") ambReg).calls = [] ∧
    (processFacts (fun _ => true) 9 "JJD0002233573349014" (some "247089") none none none
        (some "box@example.com") ambReg).success = false :=
  ⟨by decide,
   (ambiguous_match_safe (fun _ => true) 9 "JJD0002233573349014" (some "247089") none none
      none (some "box@example.com") ambReg (by decide)).1,
   (ambiguous_match_safe (fun _ => true) 9 "JJD0002233573349014" (some "247089") none none
      none (some "box@example.com") ambReg (by decide)).2.1,
   (ambiguous_match_safe (fun _ => true) 9 "JJD0002233573349014" (some "247089") none none
      none (some "box@example.com") ambReg (by decide)).2.2.1⟩

/-! ## C4 -/

theorem trackingQuery_updatePickup (reg : Registry) (tid : Nat) (pc : String)
    (lid : Option String) (now : Nat) (tn : String) :
    trackingQuery (updateTrackingWithPickupCode reg tid pc lid now) tn =
      (trackingQuery reg tn).map (fun r =>
        if r.id = tid then pickupApplied r pc lid now else r) := by
  unfold updateTrackingWithPickupCode
  apply trackingQuery_map
  intro r
  by_cases h : r.id = tid <;> simp [h, pickupApplied]

/-- One failed-delivery run: the pickup code and location are persisted, the
record is not stamped, and the adapter was invoked exactly once. -/
theorem processFacts_pickup_fail (adapter : TelegramCall → Bool) (now : Nat)
    (tn pc : String) (chat : Int) (lockerId recipientName emailAccount : Option String)
    (reg : Registry) (m : MatchRow)
    (hm : matchTrackingNumber reg tn = some m)
    (hchat : m.telegram_chat_id = some chat)
    (hnot : m.pickup_code_sent_at = none)
    (hpc : pc ≠ "")
    (hfail : adapter ⟨chat, tn, pc, lockerId⟩ = false) :
    (processFacts adapter now tn (some pc) none lockerId recipientName emailAccount
        reg).registry = updateTrackingWithPickupCode reg m.tracking_id pc lockerId now ∧
    (processFacts adapter now tn (some pc) none lockerId recipientName emailAccount
        reg).calls = [⟨chat, tn, pc, lockerId⟩] := by
  unfold processFacts
  rw [hm]
  simp [jsTruthyS, hnot, hchat, hpc, hfail, apply_ite ProcResult.registry,
    apply_ite ProcResult.calls]

/-- C4: delivery-failure atomicity and retryability.  With a notification
channel set and `pickup_code_sent_at` unset, a failed adapter call leaves the
pickup code and location persisted on the record, leaves
`pickup_code_sent_at` unset, and returns normally (the model is total — no
fatal error); re-running with the same facts invokes the adapter again. -/
theorem delivery_failure_retryable (adapter : TelegramCall → Bool) (now now2 : Nat)
    (tn pc : String) (chat : Int) (lockerId recipientName emailAccount : Option String)
    (reg : Registry) (m : MatchRow)
    (hm : matchTrackingNumber reg tn = some m)
    (hchat : m.telegram_chat_id = some chat)
    (hnot : m.pickup_code_sent_at = none)
    (hpc : pc ≠ "")
    (hfail : adapter ⟨chat, tn, pc, lockerId⟩ = false) :
    (processFacts adapter now tn (some pc) none lockerId recipientName emailAccount
        reg).calls = [⟨chat, tn, pc, lockerId⟩] ∧
    (∀ r ∈ (processFacts adapter now tn (some pc) none lockerId recipientName emailAccount
        reg).registry, r.tracking_number = tn →
      r.pickup_code = some pc ∧ r.locker_id = lockerId ∧ r.pickup_code_sent_at = none) ∧
    (processFacts adapter now2 tn (some pc) none lockerId recipientName emailAccount
      (processFacts adapter now tn (some pc) none lockerId recipientName emailAccount
        reg).registry).calls = [⟨chat, tn, pc, lockerId⟩] := by
  obtain ⟨hreg1, hcalls1⟩ := processFacts_pickup_fail adapter now tn pc chat lockerId
    recipientName emailAccount reg m hm hchat hnot hpc hfail
  obtain ⟨r, hqr, hmr⟩ := matchTrackingNumber_eq_some hm
  have hid : m.tracking_id = r.id := by rw [hmr]; rfl
  have hquery1 : trackingQuery (updateTrackingWithPickupCode reg m.tracking_id pc lockerId
      now) tn = [pickupApplied r pc lockerId now] := by
    rw [trackingQuery_updatePickup, hqr]
    simp [hid]
  have hrnot : r.pickup_code_sent_at = none := by rw [hmr] at hnot; exact hnot
  refine ⟨hcalls1, ?_, ?_⟩
  · intro r2 hr2 htn2
    rw [hreg1] at hr2
    have hmem : r2 ∈ trackingQuery (updateTrackingWithPickupCode reg m.tracking_id pc
        lockerId now) tn := by
      unfold trackingQuery
      rw [List.mem_filter]
      exact ⟨hr2, by simp [htn2]⟩
    rw [hquery1] at hmem
    rw [List.mem_singleton.mp hmem]
    exact ⟨rfl, rfl, hrnot⟩
  · rw [hreg1]
    have hm2 : matchTrackingNumber (updateTrackingWithPickupCode reg m.tracking_id pc
        lockerId now) tn = some (projRow (pickupApplied r pc lockerId now)) :=
      matchTrackingNumber_singleton hquery1
    have hchat2 : (projRow (pickupApplied r pc lockerId now)).telegram_chat_id
        = some chat := by
      rw [hmr] at hchat
      exact hchat
    have hnot2 : (projRow (pickupApplied r pc lockerId now)).pickup_code_sent_at
        = none := hrnot
    exact (processFacts_pickup_fail adapter now2 tn pc chat lockerId recipientName
      emailAccount _ _ hm2 hchat2 hnot2 hpc hfail).2

/-- Witness for C4 at a concrete input (the spec's scenario B). -/
theorem delivery_failure_retryable_witness :
    matchTrackingNumber [demoRecPlain] "JJD0002233573349014"
      = some (projRow demoRecPlain) ∧
    (processFacts (fun _ => false) 9 "JJD0002233573349014" (some "247089") none
        (some "Co-operative NR13 5LP Norwich") none (some "box@example.com")
        [demoRecPlain]).calls
      = [⟨77, "JJD0002233573349014", "247089", some "Co-operative NR13 5LP Norwich"⟩] ∧
    (processFacts (fun _ => false) 10 "JJD0002233573349014" (some "247089") none
        (some "Co-operative NR13 5LP Norwich") none (some "box@example.com")
        (processFacts (fun _ => false) 9 "JJD0002233573349014" (some "247089") none
          (some "Co-operative NR13 5LP Norwich") none (some "box@example.com")
          [demoRecPlain]).registry).calls
      = [⟨77, "JJD0002233573349014", "247089", some "Co-operative NR13 5LP Norwich"⟩] := by
  have h := delivery_failure_retryable (fun _ => false) 9 10 "JJD0002233573349014" "247089"
    77 (some "Co-operative NR13 5LP Norwich") none (some "box@example.com") [demoRecPlain]
    (projRow demoRecPlain) (by decide) (by decide) (by decide) (by decide) (by decide)
  exact ⟨by decide, h.1, h.2.2⟩

/-! ## C5 -/

theorem map_keep_of_ne (reg : Registry) (f : ShipmentRecord → ShipmentRecord)
    (hf : ∀ r ∈ reg, f r = r) : reg.map f = reg := by
  conv_rhs => rw [(List.map_id reg).symm]
  exact List.map_congr_left hf

theorem updateSend_append (reg : Registry) (nr : ShipmentRecord) (tid : Nat) (sc : String)
    (rn : Option String) (now : Nat) (htid : ∀ r ∈ reg, r.id ≠ tid) (hnr : nr.id = tid) :
    updateTrackingWithSendCode (reg ++ [nr]) tid sc rn now
      = reg ++ [sendApplied nr sc rn now] := by
  unfold updateTrackingWithSendCode
  rw [List.map_append, map_keep_of_ne]
  · simp [hnr, sendApplied]
  · intro r hr
    simp [htid r hr]

theorem markSend_append (reg : Registry) (nr : ShipmentRecord) (tid now : Nat)
    (htid : ∀ r ∈ reg, r.id ≠ tid) (hnr : nr.id = tid) :
    markSendCodeSent (reg ++ [nr]) tid now = reg ++ [markSendApplied nr now] := by
  unfold markSendCodeSent
  rw [List.map_append, map_keep_of_ne]
  · simp [hnr, markSendApplied]
  · intro r hr
    simp [htid r hr]

theorem updatePickup_append (reg : Registry) (nr : ShipmentRecord) (tid : Nat) (pc : String)
    (lid : Option String) (now : Nat) (htid : ∀ r ∈ reg, r.id ≠ tid) (hnr : nr.id = tid) :
    updateTrackingWithPickupCode (reg ++ [nr]) tid pc lid now
      = reg ++ [pickupApplied nr pc lid now] := by
  unfold updateTrackingWithPickupCode
  rw [List.map_append, map_keep_of_ne]
  · simp [hnr, pickupApplied]
  · intro r hr
    simp [htid r hr]

theorem markPickup_append (reg : Registry) (nr : ShipmentRecord) (tid now : Nat)
    (htid : ∀ r ∈ reg, r.id ≠ tid) (hnr : nr.id = tid) :
    markPickupCodeSent (reg ++ [nr]) tid now = reg ++ [markPickupApplied nr now] := by
  unfold markPickupCodeSent
  rw [List.map_append, map_keep_of_ne]
  · simp [hnr, markPickupApplied]
  · intro r hr
    simp [htid r hr]

/-- C5: lazy record creation is gated on an extracted code.  When the
tracking number matches no record and the scan knows its source mailbox, a
record is created exactly when a pickup or drop-off code was extracted; it
carries the tracking number, no owner, no channel, and the mailbox address as
provenance.  With no code, the registry is untouched. -/
theorem lazy_creation_gated (adapter : TelegramCall → Bool) (now : Nat) (tn : String)
    (pickupCode sendCode lockerId recipientName : Option String) (acct : String)
    (reg : Registry)
    (hnone : trackingQuery reg tn = [])
    (hacct : acct ≠ "") :
    ((jsTruthyS pickupCode || jsTruthyS sendCode) = true →
      ∃ nr, (processFacts adapter now tn pickupCode sendCode lockerId recipientName
          (some acct) reg).registry = reg ++ [nr] ∧
        nr.tracking_number = tn ∧ nr.user_id = none ∧ nr.telegram_chat_id = none ∧
        nr.email_used = some acct) ∧
    ((jsTruthyS pickupCode || jsTruthyS sendCode) = false →
      (processFacts adapter now tn pickupCode sendCode lockerId recipientName
          (some acct) reg).registry = reg) := by
  have hm0 : matchTrackingNumber reg tn = none := by
    unfold matchTrackingNumber
    rw [hnone]
  have hacctb : jsTruthyS (some acct) = true := by simp [jsTruthyS, hacct]
  obtain ⟨nr0, hcr, hq, htn0, hu0, hc0, hpc0, hsc0, hps0, hss0, he0, hid0⟩ :=
    trackingQuery_create reg tn acct
  have hm1 : matchTrackingNumber (createTrackingNumber reg tn acct) tn
      = some (projRow nr0) := by
    apply matchTrackingNumber_singleton
    rw [hq, hnone]
    rfl
  have htid : ∀ r ∈ reg, r.id ≠ nr0.id := by
    intro r hr
    have := freshId_gt reg r hr
    rw [hid0]
    omega
  have hprid : (projRow nr0).tracking_id = nr0.id := rfl
  have hps0p : (projRow nr0).pickup_code_sent_at = none := hps0
  have hss0p : (projRow nr0).send_code_sent_at = none := hss0
  have hc0p : (projRow nr0).telegram_chat_id = none := hc0
  constructor
  · intro hcode
    unfold processFacts
    rw [hm0]
    cases hsp : jsTruthyS pickupCode <;> cases hss2 : jsTruthyS sendCode
    · rw [hsp, hss2] at hcode
      cases hcode
    · simp only [hsp, hss2, hacctb, Option.isNone_none, Bool.true_and, Bool.false_or,
        Bool.and_self, if_true, Option.getD_some, hm1, hps0p, hss0p, hc0p,
        Option.isSome_none, Bool.false_eq_true, if_false, Bool.or_true,
        apply_ite ProcResult.registry, ite_self]
      rw [hcr, hprid, updateSend_append reg nr0 _ _ _ _ htid rfl,
        markSend_append reg (sendApplied nr0 (sendCode.getD "") recipientName now)
          nr0.id now htid rfl]
      exact ⟨_, rfl, htn0, hu0, hc0, he0⟩
    · simp only [hsp, hss2, hacctb, Option.isNone_none, Bool.true_and, Bool.or_false,
        Bool.and_self, if_true, Option.getD_some, hm1, hps0p, hss0p, hc0p,
        Option.isSome_none, Bool.false_eq_true, if_false, Bool.true_or,
        apply_ite ProcResult.registry, ite_self]
      rw [hcr, hprid, updatePickup_append reg nr0 _ _ _ _ htid rfl,
        markPickup_append reg (pickupApplied nr0 (pickupCode.getD "") lockerId now)
          nr0.id now htid rfl]
      exact ⟨_, rfl, htn0, hu0, hc0, he0⟩
    · simp only [hsp, hss2, hacctb, Option.isNone_none, Bool.true_and, Bool.or_self,
        Bool.and_self, if_true, Option.getD_some, hm1, hps0p, hss0p, hc0p,
        Option.isSome_none, Bool.false_eq_true, if_false, Bool.true_or,
        apply_ite ProcResult.registry, ite_self]
      rw [hcr, hprid, updateSend_append reg nr0 _ _ _ _ htid rfl,
        markSend_append reg (sendApplied nr0 (sendCode.getD "") recipientName now)
          nr0.id now htid rfl,
        updatePickup_append reg
          (markSendApplied (sendApplied nr0 (sendCode.getD "") recipientName now) now)
          nr0.id (pickupCode.getD "") lockerId now htid rfl,
        markPickup_append reg
          (pickupApplied
            (markSendApplied (sendApplied nr0 (sendCode.getD "") recipientName now) now)
            (pickupCode.getD "") lockerId now)
          nr0.id now htid rfl]
      exact ⟨_, rfl, htn0, hu0, hc0, he0⟩
  · intro hcode
    unfold processFacts
    rw [hm0]
    simp [hcode]

/-- Witness for C5: with a pickup code a record is created; with no codes,
none is. -/
theorem lazy_creation_gated_witness :
    trackingQuery [] "JJD0002233573349014" = [] ∧
    (∃ nr, (processFacts (fun _ => true) 9 "JJD0002233573349014" (some "247089") none none
        none (some "box@example.com") []).registry = [] ++ [nr] ∧
      nr.tracking_number = "JJD0002233573349014" ∧ nr.user_id = none ∧
      nr.telegram_chat_id = none ∧ nr.email_used = some "box@example.com") ∧
    (processFacts (fun _ => true) 9 "JJD0002233573349014" none none none none
        (some "box@example.com") []).registry = [] := by
  refine ⟨by decide, ?_, ?_⟩
  · exact (lazy_creation_gated (fun _ => true) 9 "JJD0002233573349014" (some "247089") none
      none none "box@example.com" [] (by decide) (by decide)).1 (by decide)
  · exact (lazy_creation_gated (fun _ => true) 9 "JJD0002233573349014" none none
      none none "box@example.com" [] (by decide) (by decide)).2 (by decide)

/-! ## C6 -/

/-- C6: an email from which no tracking number is extractable is skipped
without creating or mutating any record: the registry after the call is the
registry before it, no adapter call is made, and the outcome is failure. -/
theorem no_tracking_number_no_mutation (adapter : TelegramCall → Bool) (now : Nat)
    (emailText emailHtml : String) (emailAccount : Option String) (reg : Registry)
    (h : extractTrackingNumber (emailText ++ " " ++ cleanHtml emailHtml) = none) :
    processEmail adapter now emailText emailHtml emailAccount reg
      = { registry := reg, calls := [], success := false } := by
  simp only [processEmail, h]

/-- Witness for C6 at a concrete input. -/
theorem no_tracking_number_no_mutation_witness :
    extractTrackingNumber ("hello there" ++ " " ++ cleanHtml "") = none ∧
    processEmail (fun _ => true) 9 "hello there" "" (some "box@example.com") [demoRecPlain]
      = { registry := [demoRecPlain], calls := [], success := false } :=
  ⟨by decide,
   no_tracking_number_no_mutation (fun _ => true) 9 "hello there" ""
     (some "box@example.com") [demoRecPlain] (by decide)⟩

/-! ## C10 -/

/-- C10: `processFacts` reports a message as processed whenever the matched
record already had one of the sent-at stamps set before the call and some
code was extracted — even when the other code's processing in the same call
did new work that failed (e.g. a failed Telegram delivery of a pickup code on
a record whose drop-off code was recorded in an earlier scan). -/
theorem already_processed_reported (adapter : TelegramCall → Bool) (now : Nat) (tn : String)
    (pickupCode sendCode lockerId recipientName emailAccount : Option String)
    (reg : Registry) (m : MatchRow)
    (hm : matchTrackingNumber reg tn = some m)
    (hcode : (jsTruthyS pickupCode || jsTruthyS sendCode) = true)
    (hprev : (m.send_code_sent_at.isSome || m.pickup_code_sent_at.isSome) = true) :
    (processFacts adapter now tn pickupCode sendCode lockerId recipientName emailAccount
        reg).success = true := by
  unfold processFacts
  rw [hm]
  have h1 : (!jsTruthyS sendCode && !jsTruthyS pickupCode) = false := by
    cases hsp : jsTruthyS pickupCode <;> cases hss : jsTruthyS sendCode <;>
      rw [hsp, hss] at hcode <;> simp_all
  simp [h1, hprev, apply_ite ProcResult.success]

/-- Witness for C10: drop-off code recorded in an earlier scan, new pickup
code whose delivery fails, still reported processed. -/
theorem already_processed_reported_witness :
    matchTrackingNumber [demoRecSendSent] "JJD0002233573349014"
      = some (projRow demoRecSendSent) ∧
    (processFacts (fun _ => false) 9 "JJD0002233573349014" (some "247089") none none none
        (some "box@example.com") [demoRecSendSent]).success = true :=
  ⟨by decide,
   already_processed_reported (fun _ => false) 9 "JJD0002233573349014" (some "247089") none
     none none (some "box@example.com") [demoRecSendSent] (projRow demoRecSendSent)
     (by decide) (by decide) (by decide)⟩

/-! ## Regex-engine step lemmas and parameterized extractor theorems -/

theorem isLower_false_of_isUpper (c : Char) (h : c.isUpper = true) : c.isLower = false := by
  simp [Char.isUpper, Char.isLower] at *
  intro h1
  have h2 : c.val.toNat ≤ (90:UInt32).toNat := h.2
  have h3 : (97:UInt32).toNat ≤ c.val.toNat := h1
  have e1 : (90:UInt32).toNat = 90 := rfl
  have e2 : (97:UInt32).toNat = 97 := rfl
  omega

theorem isLower_false_of_isDigit (c : Char) (h : c.isDigit = true) : c.isLower = false := by
  simp [Char.isDigit, Char.isLower] at *
  intro h1
  have h2 : c.val.toNat ≤ (57:UInt32).toNat := h.2
  have h3 : (97:UInt32).toNat ≤ c.val.toNat := h1
  have e1 : (57:UInt32).toNat = 57 := rfl
  have e2 : (97:UInt32).toNat = 97 := rfl
  omega

theorem isAlpha_false_of_isDigit (c : Char) (h : c.isDigit = true) : c.isAlpha = false := by
  simp [Char.isDigit, Char.isAlpha, Char.isUpper, Char.isLower] at *
  have h2 : c.val.toNat ≤ (57:UInt32).toNat := h.2
  have e1 : (57:UInt32).toNat = 57 := rfl
  constructor
  · intro h1
    have h3 : (65:UInt32).toNat ≤ c.val.toNat := h1
    have e2 : (65:UInt32).toNat = 65 := rfl
    omega
  · intro h1
    have h3 : (97:UInt32).toNat ≤ c.val.toNat := h1
    have e2 : (97:UInt32).toNat = 97 := rfl
    omega

theorem toUpper_eq_self_of_isUpper (c : Char) (h : c.isUpper = true) : c.toUpper = c := by
  simp only [Char.toUpper]
  rw [if_neg]
  intro hc
  simp [Char.isUpper] at h
  have h2 : c.val.toNat ≤ (90:UInt32).toNat := h.2
  have e1 : (90:UInt32).toNat = 90 := rfl
  have h3 : 97 ≤ c.toNat := hc.1
  have e2 : c.toNat = c.val.toNat := rfl
  omega

theorem toUpper_eq_self_of_isDigit (c : Char) (h : c.isDigit = true) : c.toUpper = c := by
  simp only [Char.toUpper]
  rw [if_neg]
  intro hc
  simp [Char.isDigit] at h
  have h2 : c.val.toNat ≤ (57:UInt32).toNat := h.2
  have e1 : (57:UInt32).toNat = 57 := rfl
  have h3 : 97 ≤ c.toNat := hc.1
  have e2 : c.toNat = c.val.toNat := rfl
  omega

theorem jsWs_false_of_isUpper (c : Char) (h : c.isUpper = true) : jsWs c = false := by
  by_contra hne
  rw [Bool.not_eq_false] at hne
  unfold jsWs at hne
  simp only [Bool.or_eq_true, beq_iff_eq] at hne
  rcases hne with ((((((rfl | rfl) | rfl) | rfl) | rfl) | rfl) | rfl) <;>
    exact absurd h (by decide)

theorem jsWs_false_of_isDigit (c : Char) (h : c.isDigit = true) : jsWs c = false := by
  by_contra hne
  rw [Bool.not_eq_false] at hne
  unfold jsWs at hne
  simp only [Bool.or_eq_true, beq_iff_eq] at hne
  rcases hne with ((((((rfl | rfl) | rfl) | rfl) | rfl) | rfl) | rfl) <;>
    exact absurd h (by decide)

theorem takeWhile_append_of_all (p : Char → Bool) (l1 l2 : List Char)
    (h : ∀ c ∈ l1, p c = true) :
    List.takeWhile p (l1 ++ l2) = l1 ++ List.takeWhile p l2 := by
  induction l1 with
  | nil => simp
  | cons a t ih =>
    simp only [List.cons_append, List.takeWhile_cons, h a (List.mem_cons_self a t), if_true]
    rw [ih (fun c hc => h c (List.mem_cons_of_mem a hc))]

theorem countsList_greedy_head (mn hi : Nat) (h : mn ≤ hi) :
    countsList mn hi false
      = hi :: ((List.range (hi - mn)).map (fun i => mn + i)).reverse := by
  unfold countsList
  rw [if_neg (Nat.not_lt.mpr h)]
  have h1 : hi + 1 - mn = (hi - mn) + 1 := by omega
  rw [h1, List.range_succ, List.map_append]
  have h2 : mn + (hi - mn) = hi := by omega
  simp [List.reverse_append, h2]

theorem runA_lit_step (fuel : Nat) (c c' : Char) (t : List Char) (rest : List RAtom)
    (st : MSt) (hrem : st.rem = c' :: t) (hm : (c'.toLower == c.toLower) = true) :
    runA (fuel + 1) (RAtom.cls (fun d => d.toLower == c.toLower) 1 (some 1) false :: rest)
        st
      = runA fuel rest (consume st 1) := by
  simp only [runA, hrem, List.takeWhile_cons, hm, if_true]
  have hmin : min 1 ((List.takeWhile (fun d => d.toLower == c.toLower) t).length + 1)
      = 1 := by omega
  rw [List.length_cons, hmin]
  have hc : countsList 1 1 false = [1] := by decide
  rw [hc]
  cases hx : runA fuel rest (consume st 1) <;> simp [List.findSome?, hx]

theorem findSome?_head {α β : Type} (f : α → Option β) (a : α) (l : List α) (b : β)
    (h : f a = some b) : (a :: l).findSome? f = some b := by
  simp [List.findSome?, h]

theorem runA_group_uk (fuel : Nat) (letters digits : List Char) (pv : Option Char)
    (hl2 : 2 ≤ letters.length) (hl3 : letters.length ≤ 3)
    (hd12 : 12 ≤ digits.length) (hd21 : digits.length ≤ 21)
    (halpha : List.takeWhile clsAlphaCI (letters ++ digits) = letters)
    (hdigit : List.takeWhile clsDigit digits = digits) :
    runA (fuel + 5)
        [RAtom.openG, RAtom.cls clsAlphaCI 2 (some 3) false,
         RAtom.cls clsDigit 12 (some 21) false, RAtom.closeG]
        { prev := pv, rem := letters ++ digits, gAcc := none, g1 := none }
      = some { prev := digits.get? (digits.length - 1), rem := [], gAcc := none,
               g1 := some (letters ++ digits) } := by
  have hC : ∀ (st : MSt), runA (fuel + 2) [RAtom.closeG] st
      = some { st with g1 := st.gAcc, gAcc := none } := by
    intro st
    simp only [runA]
  have hD : runA (fuel + 3)
      [RAtom.cls clsDigit 12 (some 21) false, RAtom.closeG]
      { prev := (letters ++ digits).get? (letters.length - 1), rem := digits,
        gAcc := some letters, g1 := none }
      = some { prev := digits.get? (digits.length - 1), rem := [], gAcc := none,
               g1 := some (letters ++ digits) } := by
    simp only [runA, hdigit]
    rw [Nat.min_eq_right hd21, countsList_greedy_head 12 digits.length hd12]
    apply findSome?_head
    have hcons : consume
        { prev := (letters ++ digits).get? (letters.length - 1), rem := digits,
          gAcc := some letters, g1 := none } digits.length
        = { prev := digits.get? (digits.length - 1), rem := [],
            gAcc := some (letters ++ digits), g1 := none } := by
      unfold consume
      rw [if_neg (by omega)]
      simp [List.drop_length, List.take_length]
    rw [hcons]
  have hA : runA (fuel + 4)
      [RAtom.cls clsAlphaCI 2 (some 3) false,
       RAtom.cls clsDigit 12 (some 21) false, RAtom.closeG]
      { prev := pv, rem := letters ++ digits, gAcc := some [], g1 := none }
      = some { prev := digits.get? (digits.length - 1), rem := [], gAcc := none,
               g1 := some (letters ++ digits) } := by
    simp only [runA, halpha]
    rw [Nat.min_eq_right hl3, countsList_greedy_head 2 letters.length hl2]
    apply findSome?_head
    have hcons : consume
        { prev := pv, rem := letters ++ digits, gAcc := some [], g1 := none }
        letters.length
        = { prev := (letters ++ digits).get? (letters.length - 1), rem := digits,
            gAcc := some letters, g1 := none } := by
      unfold consume
      rw [if_neg (by omega)]
      simp [List.drop_left, List.take_left]
    rw [hcons]
    exact hD
  simp only [runA]
  exact hA

theorem runA_lit_stepS (fuel : Nat) (c c' : Char) (t : List Char) (rest : List RAtom)
    (st r : MSt) (hrem : st.rem = c' :: t) (hm : (c'.toLower == c.toLower) = true)
    (hsucc : runA fuel rest (consume st 1) = some r) :
    runA (fuel + 1) (RAtom.cls (fun d => d.toLower == c.toLower) 1 (some 1) false :: rest)
        st = some r := by
  rw [runA_lit_step fuel c c' t rest st hrem hm]
  exact hsucc

theorem runA_cls01_step (fuel : Nat) (p : Char → Bool) (mx : Option Nat) (rest : List RAtom)
    (st r : MSt) (htw : (List.takeWhile p st.rem).length = 1)
    (hmx : mx = none ∨ mx = some 1)
    (hsucc : runA fuel rest (consume st 1) = some r) :
    runA (fuel + 1) (RAtom.cls p 0 mx false :: rest) st = some r := by
  rcases hmx with rfl | rfl
  · rw [runA, htw]
    rw [show countsList 0 1 false = [1, 0] from by decide]
    exact findSome?_head _ _ _ _ hsucc
  · rw [runA, htw]
    rw [show min 1 1 = 1 from rfl, show countsList 0 1 false = [1, 0] from by decide]
    exact findSome?_head _ _ _ _ hsucc

set_option maxHeartbeats 1600000 in
theorem extractTrackingNumber_parcel_label (letters digits : List Char)
    (hl2 : 2 ≤ letters.length) (hl3 : letters.length ≤ 3)
    (hd12 : 12 ≤ digits.length) (hd21 : digits.length ≤ 21)
    (hup : ∀ c ∈ letters, c.isUpper = true)
    (hdig : ∀ c ∈ digits, c.isDigit = true) :
    extractTrackingNumber (String.mk ("PARCEL NO. ".data ++ (letters ++ digits)))
      = some (String.mk (letters ++ digits)) := by
  obtain ⟨a, lt, hsh⟩ : ∃ a lt, letters = a :: lt := by
    cases letters with
    | nil => simp at hl2
    | cons a lt => exact ⟨a, lt, rfl⟩
  obtain ⟨d0, dt, hdsh⟩ : ∃ d0 dt, digits = d0 :: dt := by
    cases digits with
    | nil => simp at hd12
    | cons d0 dt => exact ⟨d0, dt, rfl⟩
  have hwsa : jsWs a = false := jsWs_false_of_isUpper a (hup a (by rw [hsh]; exact List.mem_cons_self a lt))
  have halpha : List.takeWhile clsAlphaCI (letters ++ digits) = letters := by
    rw [takeWhile_append_of_all clsAlphaCI letters digits (fun c hc => by
      unfold clsAlphaCI
      simp [Char.isAlpha, hup c hc])]
    rw [hdsh, List.takeWhile_cons,
      show clsAlphaCI d0 = false from isAlpha_false_of_isDigit d0 (hdig d0 (by rw [hdsh]; exact List.mem_cons_self d0 dt))]
    simp
  have hdigit : List.takeWhile clsDigit digits = digits :=
    List.takeWhile_eq_self_iff.mpr (fun c hc => hdig c hc)
  have htwws : (List.takeWhile jsWs (' ' :: (letters ++ digits))).length = 1 := by
    rw [List.takeWhile_cons]
    simp only [show jsWs ' ' = true from rfl, if_true, hsh, List.cons_append,
      List.takeWhile_cons, hwsa]
    simp
  have h5 : runA 5
      [RAtom.openG, RAtom.cls clsAlphaCI 2 (some 3) false,
       RAtom.cls clsDigit 12 (some 21) false, RAtom.closeG]
      ⟨some ' ', letters ++ digits, none, none⟩
      = some ⟨digits.get? (digits.length - 1), [], none, some (letters ++ digits)⟩ :=
    runA_group_uk 0 letters digits (some ' ') hl2 hl3 hd12 hd21 halpha hdigit
  have h6 : runA 6
      (RAtom.cls jsWs 0 none false ::
       [RAtom.openG, RAtom.cls clsAlphaCI 2 (some 3) false,
        RAtom.cls clsDigit 12 (some 21) false, RAtom.closeG])
      ⟨some '.', ' ' :: (letters ++ digits), none, none⟩
      = some ⟨digits.get? (digits.length - 1), [], none, some (letters ++ digits)⟩ :=
    runA_cls01_step 5 jsWs none _ _ _ htwws (Or.inl rfl) h5
  have h7 : runA 7
      (RAtom.cls (fun c => c == '.') 0 (some 1) false :: RAtom.cls jsWs 0 none false ::
       [RAtom.openG, RAtom.cls clsAlphaCI 2 (some 3) false,
        RAtom.cls clsDigit 12 (some 21) false, RAtom.closeG])
      ⟨some 'O', '.' :: ' ' :: (letters ++ digits), none, none⟩
      = some ⟨digits.get? (digits.length - 1), [], none, some (letters ++ digits)⟩ :=
    runA_cls01_step 6 _ (some 1) _ _ _ (by rfl) (Or.inr rfl) h6
  have h8 : runA 8
      (RAtom.cls (fun d => d.toLower == 'o'.toLower) 1 (some 1) false ::
       RAtom.cls (fun c => c == '.') 0 (some 1) false :: RAtom.cls jsWs 0 none false ::
       [RAtom.openG, RAtom.cls clsAlphaCI 2 (some 3) false,
        RAtom.cls clsDigit 12 (some 21) false, RAtom.closeG])
      ⟨some 'N', 'O' :: '.' :: ' ' :: (letters ++ digits), none, none⟩
      = some ⟨digits.get? (digits.length - 1), [], none, some (letters ++ digits)⟩ :=
    runA_lit_stepS 7 'o' 'O' _ _ _ _ rfl (by decide) h7
  have h9 : runA 9
      (RAtom.cls (fun d => d.toLower == 'n'.toLower) 1 (some 1) false ::
       RAtom.cls (fun d => d.toLower == 'o'.toLower) 1 (some 1) false ::
       RAtom.cls (fun c => c == '.') 0 (some 1) false :: RAtom.cls jsWs 0 none false ::
       [RAtom.openG, RAtom.cls clsAlphaCI 2 (some 3) false,
        RAtom.cls clsDigit 12 (some 21) false, RAtom.closeG])
      ⟨some ' ', 'N' :: 'O' :: '.' :: ' ' :: (letters ++ digits), none, none⟩
      = some ⟨digits.get? (digits.length - 1), [], none, some (letters ++ digits)⟩ :=
    runA_lit_stepS 8 'n' 'N' _ _ _ _ rfl (by decide) h8
  have h10 : runA 10
      (RAtom.cls clsUnderscoreWsDot 0 none false ::
       RAtom.cls (fun d => d.toLower == 'n'.toLower) 1 (some 1) false ::
       RAtom.cls (fun d => d.toLower == 'o'.toLower) 1 (some 1) false ::
       RAtom.cls (fun c => c == '.') 0 (some 1) false :: RAtom.cls jsWs 0 none false ::
       [RAtom.openG, RAtom.cls clsAlphaCI 2 (some 3) false,
        RAtom.cls clsDigit 12 (some 21) false, RAtom.closeG])
      ⟨some 'L', ' ' :: 'N' :: 'O' :: '.' :: ' ' :: (letters ++ digits), none, none⟩
      = some ⟨digits.get? (digits.length - 1), [], none, some (letters ++ digits)⟩ :=
    runA_cls01_step 9 clsUnderscoreWsDot none _ _ _ (by rfl) (Or.inl rfl) h9
  have h11 : runA 11
      (RAtom.cls (fun d => d.toLower == 'l'.toLower) 1 (some 1) false ::
       RAtom.cls clsUnderscoreWsDot 0 none false ::
       RAtom.cls (fun d => d.toLower == 'n'.toLower) 1 (some 1) false ::
       RAtom.cls (fun d => d.toLower == 'o'.toLower) 1 (some 1) false ::
       RAtom.cls (fun c => c == '.') 0 (some 1) false :: RAtom.cls jsWs 0 none false ::
       [RAtom.openG, RAtom.cls clsAlphaCI 2 (some 3) false,
        RAtom.cls clsDigit 12 (some 21) false, RAtom.closeG])
      ⟨some 'E', 'L' :: ' ' :: 'N' :: 'O' :: '.' :: ' ' :: (letters ++ digits), none, none⟩
      = some ⟨digits.get? (digits.length - 1), [], none, some (letters ++ digits)⟩ :=
    runA_lit_stepS 10 'l' 'L' _ _ _ _ rfl (by decide) h10
  have h12 : runA 12
      (RAtom.cls (fun d => d.toLower == 'e'.toLower) 1 (some 1) false ::
       RAtom.cls (fun d => d.toLower == 'l'.toLower) 1 (some 1) false ::
       RAtom.cls clsUnderscoreWsDot 0 none false ::
       RAtom.cls (fun d => d.toLower == 'n'.toLower) 1 (some 1) false ::
       RAtom.cls (fun d => d.toLower == 'o'.toLower) 1 (some 1) false ::
       RAtom.cls (fun c => c == '.') 0 (some 1) false :: RAtom.cls jsWs 0 none false ::
       [RAtom.openG, RAtom.cls clsAlphaCI 2 (some 3) false,
        RAtom.cls clsDigit 12 (some 21) false, RAtom.closeG])
      ⟨some 'C', 'E' :: 'L' :: ' ' :: 'N' :: 'O' :: '.' :: ' ' :: (letters ++ digits), none, none⟩
      = some ⟨digits.get? (digits.length - 1), [], none, some (letters ++ digits)⟩ :=
    runA_lit_stepS 11 'e' 'E' _ _ _ _ rfl (by decide) h11
  have h13 : runA 13
      (RAtom.cls (fun d => d.toLower == 'c'.toLower) 1 (some 1) false ::
       RAtom.cls (fun d => d.toLower == 'e'.toLower) 1 (some 1) false ::
       RAtom.cls (fun d => d.toLower == 'l'.toLower) 1 (some 1) false ::
       RAtom.cls clsUnderscoreWsDot 0 none false ::
       RAtom.cls (fun d => d.toLower == 'n'.toLower) 1 (some 1) false ::
       RAtom.cls (fun d => d.toLower == 'o'.toLower) 1 (some 1) false ::
       RAtom.cls (fun c => c == '.') 0 (some 1) false :: RAtom.cls jsWs 0 none false ::
       [RAtom.openG, RAtom.cls clsAlphaCI 2 (some 3) false,
        RAtom.cls clsDigit 12 (some 21) false, RAtom.closeG])
      ⟨some 'R', 'C' :: 'E' :: 'L' :: ' ' :: 'N' :: 'O' :: '.' :: ' ' :: (letters ++ digits), none, none⟩
      = some ⟨digits.get? (digits.length - 1), [], none, some (letters ++ digits)⟩ :=
    runA_lit_stepS 12 'c' 'C' _ _ _ _ rfl (by decide) h12
  have h14 : runA 14
      (RAtom.cls (fun d => d.toLower == 'r'.toLower) 1 (some 1) false ::
       RAtom.cls (fun d => d.toLower == 'c'.toLower) 1 (some 1) false ::
       RAtom.cls (fun d => d.toLower == 'e'.toLower) 1 (some 1) false ::
       RAtom.cls (fun d => d.toLower == 'l'.toLower) 1 (some 1) false ::
       RAtom.cls clsUnderscoreWsDot 0 none false ::
       RAtom.cls (fun d => d.toLower == 'n'.toLower) 1 (some 1) false ::
       RAtom.cls (fun d => d.toLower == 'o'.toLower) 1 (some 1) false ::
       RAtom.cls (fun c => c == '.') 0 (some 1) false :: RAtom.cls jsWs 0 none false ::
       [RAtom.openG, RAtom.cls clsAlphaCI 2 (some 3) false,
        RAtom.cls clsDigit 12 (some 21) false, RAtom.closeG])
      ⟨some 'A', 'R' :: 'C' :: 'E' :: 'L' :: ' ' :: 'N' :: 'O' :: '.' :: ' ' :: (letters ++ digits), none, none⟩
      = some ⟨digits.get? (digits.length - 1), [], none, some (letters ++ digits)⟩ :=
    runA_lit_stepS 13 'r' 'R' _ _ _ _ rfl (by decide) h13
  have h15 : runA 15
      (RAtom.cls (fun d => d.toLower == 'a'.toLower) 1 (some 1) false ::
       RAtom.cls (fun d => d.toLower == 'r'.toLower) 1 (some 1) false ::
       RAtom.cls (fun d => d.toLower == 'c'.toLower) 1 (some 1) false ::
       RAtom.cls (fun d => d.toLower == 'e'.toLower) 1 (some 1) false ::
       RAtom.cls (fun d => d.toLower == 'l'.toLower) 1 (some 1) false ::
       RAtom.cls clsUnderscoreWsDot 0 none false ::
       RAtom.cls (fun d => d.toLower == 'n'.toLower) 1 (some 1) false ::
       RAtom.cls (fun d => d.toLower == 'o'.toLower) 1 (some 1) false ::
       RAtom.cls (fun c => c == '.') 0 (some 1) false :: RAtom.cls jsWs 0 none false ::
       [RAtom.openG, RAtom.cls clsAlphaCI 2 (some 3) false,
        RAtom.cls clsDigit 12 (some 21) false, RAtom.closeG])
      ⟨some 'P', 'A' :: 'R' :: 'C' :: 'E' :: 'L' :: ' ' :: 'N' :: 'O' :: '.' :: ' ' :: (letters ++ digits), none, none⟩
      = some ⟨digits.get? (digits.length - 1), [], none, some (letters ++ digits)⟩ :=
    runA_lit_stepS 14 'a' 'A' _ _ _ _ rfl (by decide) h14
  have h16 : runA 16
      (RAtom.cls (fun d => d.toLower == 'p'.toLower) 1 (some 1) false ::
       RAtom.cls (fun d => d.toLower == 'a'.toLower) 1 (some 1) false ::
       RAtom.cls (fun d => d.toLower == 'r'.toLower) 1 (some 1) false ::
       RAtom.cls (fun d => d.toLower == 'c'.toLower) 1 (some 1) false ::
       RAtom.cls (fun d => d.toLower == 'e'.toLower) 1 (some 1) false ::
       RAtom.cls (fun d => d.toLower == 'l'.toLower) 1 (some 1) false ::
       RAtom.cls clsUnderscoreWsDot 0 none false ::
       RAtom.cls (fun d => d.toLower == 'n'.toLower) 1 (some 1) false ::
       RAtom.cls (fun d => d.toLower == 'o'.toLower) 1 (some 1) false ::
       RAtom.cls (fun c => c == '.') 0 (some 1) false :: RAtom.cls jsWs 0 none false ::
       [RAtom.openG, RAtom.cls clsAlphaCI 2 (some 3) false,
        RAtom.cls clsDigit 12 (some 21) false, RAtom.closeG])
      ⟨none, 'P' :: 'A' :: 'R' :: 'C' :: 'E' :: 'L' :: ' ' :: 'N' :: 'O' :: '.' :: ' ' :: (letters ++ digits), none, none⟩
      = some ⟨digits.get? (digits.length - 1), [], none, some (letters ++ digits)⟩ :=
    runA_lit_stepS 15 'p' 'P' _ _ _ _ rfl (by decide) h15
  have hrt : runTop
      (ciLit "parcel" ++ [RAtom.cls clsUnderscoreWsDot 0 none false] ++ ciLit "no" ++
       [RAtom.cls (fun c => c == '.') 0 (some 1) false, RAtom.cls jsWs 0 none false,
        RAtom.openG, RAtom.cls clsAlphaCI 2 (some 3) false,
        RAtom.cls clsDigit 12 (some 21) false, RAtom.closeG])
      ⟨none, 'P' :: 'A' :: 'R' :: 'C' :: 'E' :: 'L' :: ' ' :: 'N' :: 'O' :: '.' :: ' ' :: (letters ++ digits), none, none⟩
      = some ⟨digits.get? (digits.length - 1), [], none, some (letters ++ digits)⟩ := h16
  have hscan : scanMatch
      (ciLit "parcel" ++ [RAtom.cls clsUnderscoreWsDot 0 none false] ++ ciLit "no" ++
       [RAtom.cls (fun c => c == '.') 0 (some 1) false, RAtom.cls jsWs 0 none false,
        RAtom.openG, RAtom.cls clsAlphaCI 2 (some 3) false,
        RAtom.cls clsDigit 12 (some 21) false, RAtom.closeG])
      none ('P' :: 'A' :: 'R' :: 'C' :: 'E' :: 'L' :: ' ' :: 'N' :: 'O' :: '.' :: ' ' :: (letters ++ digits))
      = some ('P' :: 'A' :: 'R' :: 'C' :: 'E' :: 'L' :: ' ' :: 'N' :: 'O' :: '.' :: ' ' :: (letters ++ digits),
          ⟨digits.get? (digits.length - 1), [], none, some (letters ++ digits)⟩) := by
    rw [scanMatch, hrt]
  have hjm : jsMatch1
      (ciLit "parcel" ++ [RAtom.cls clsUnderscoreWsDot 0 none false] ++ ciLit "no" ++
       [RAtom.cls (fun c => c == '.') 0 (some 1) false, RAtom.cls jsWs 0 none false,
        RAtom.openG, RAtom.cls clsAlphaCI 2 (some 3) false,
        RAtom.cls clsDigit 12 (some 21) false, RAtom.closeG])
      ('P' :: 'A' :: 'R' :: 'C' :: 'E' :: 'L' :: ' ' :: 'N' :: 'O' :: '.' :: ' ' :: (letters ++ digits)) = some (letters ++ digits) := by
    unfold jsMatch1
    rw [hscan, hsh]
    simp
  have hml : letters.map Char.toUpper = letters :=
    (List.map_congr_left (fun c hc => toUpper_eq_self_of_isUpper c (hup c hc))).trans
      (List.map_id letters)
  have hmd : digits.map Char.toUpper = digits :=
    (List.map_congr_left (fun c hc => toUpper_eq_self_of_isDigit c (hdig c hc))).trans
      (List.map_id digits)
  have hmap : (letters ++ digits).map Char.toUpper = letters ++ digits := by
    rw [List.map_append, hml, hmd]
  have hstrip : stripJsWs (letters ++ digits) = letters ++ digits := by
    unfold stripJsWs
    rw [List.filter_eq_self]
    intro c hc
    rcases List.mem_append.mp hc with hm | hm
    · simp [jsWs_false_of_isUpper c (hup c hm)]
    · simp [jsWs_false_of_isDigit c (hdig c hm)]
  unfold extractTrackingNumber trackingNumberPatterns runPatterns
  rw [show (String.mk ("PARCEL NO. ".data ++ (letters ++ digits))).data
    = 'P' :: 'A' :: 'R' :: 'C' :: 'E' :: 'L' :: ' ' :: 'N' :: 'O' :: '.' :: ' ' :: (letters ++ digits) from rfl]
  simp only [Bool.false_eq_true, if_false, hjm, hmap, hstrip]

theorem clsColonWs_false_of_isDigit (c : Char) (h : c.isDigit = true) :
    clsColonWs c = false := by
  by_contra hne
  rw [Bool.not_eq_false] at hne
  unfold clsColonWs jsWs at hne
  simp only [Bool.or_eq_true, beq_iff_eq] at hne
  rcases hne with (rfl | ((((((rfl | rfl) | rfl) | rfl) | rfl) | rfl) | rfl)) <;>
    exact absurd h (by decide)

theorem runA_group_pickup (fuel : Nat) (digits : List Char) (pv : Option Char)
    (hlen : digits.length = 6)
    (hdigit : List.takeWhile clsDigit digits = digits) :
    runA (fuel + 4) [RAtom.openG, RAtom.cls clsDigit 6 (some 6) false, RAtom.closeG]
        { prev := pv, rem := digits, gAcc := none, g1 := none }
      = some { prev := digits.get? 5, rem := [], gAcc := none, g1 := some digits } := by
  have hD : runA (fuel + 3)
      [RAtom.cls clsDigit 6 (some 6) false, RAtom.closeG]
      { prev := pv, rem := digits, gAcc := some [], g1 := none }
      = some { prev := digits.get? 5, rem := [], gAcc := none, g1 := some digits } := by
    simp only [runA, hdigit, hlen]
    rw [show min 6 6 = 6 from rfl, show countsList 6 6 false = [6] from by decide]
    apply findSome?_head
    have hdrop : digits.drop 6 = [] := by
      rw [← hlen]
      exact List.drop_length digits
    have htake : digits.take 6 = digits := by
      rw [← hlen]
      exact List.take_length digits
    have hcons : consume { prev := pv, rem := digits, gAcc := some [], g1 := none } 6
        = { prev := digits.get? 5, rem := [], gAcc := some digits, g1 := none } := by
      unfold consume
      rw [if_neg (by omega)]
      simp [hdrop, htake]
    rw [hcons]
  simp only [runA]
  exact hD
set_option maxHeartbeats 800000 in
theorem extractPickupCode_collection_label (digits : List Char)
    (hlen : digits.length = 6)
    (hdig : ∀ c ∈ digits, c.isDigit = true) :
    extractPickupCode (String.mk ("COLLECTION CODE ".data ++ digits))
      = some (String.mk digits) := by
  obtain ⟨d0, dt, hdsh⟩ : ∃ d0 dt, digits = d0 :: dt := by
    cases digits with
    | nil => simp at hlen
    | cons d0 dt => exact ⟨d0, dt, rfl⟩
  have hcwd0 : clsColonWs d0 = false :=
    clsColonWs_false_of_isDigit d0 (hdig d0 (by rw [hdsh]; exact List.mem_cons_self d0 dt))
  have hdigit : List.takeWhile clsDigit digits = digits :=
    List.takeWhile_eq_self_iff.mpr (fun c hc => hdig c hc)
  have htwcw : (List.takeWhile clsColonWs (' ' :: digits)).length = 1 := by
    rw [List.takeWhile_cons]
    simp only [show clsColonWs ' ' = true from rfl, if_true, hdsh,
      List.takeWhile_cons, hcwd0]
    simp
  have h4 : runA 4 [RAtom.openG, RAtom.cls clsDigit 6 (some 6) false, RAtom.closeG]
      ⟨some ' ', digits, none, none⟩ = some ⟨digits.get? 5, [], none, some digits⟩ :=
    runA_group_pickup 0 digits (some ' ') hlen hdigit
  have h5 : runA 5
      [RAtom.cls clsColonWs 0 none false,
       RAtom.openG,
       RAtom.cls clsDigit 6 (some 6) false,
       RAtom.closeG]
      ⟨some 'E', ' ' :: digits, none, none⟩ = some ⟨digits.get? 5, [], none, some digits⟩ :=
    runA_cls01_step 4 clsColonWs none _ _ _ htwcw (Or.inl rfl) h4
  have h6 : runA 6
      [RAtom.cls (fun d => d.toLower == 'e'.toLower) 1 (some 1) false,
       RAtom.cls clsColonWs 0 none false,
       RAtom.openG,
       RAtom.cls clsDigit 6 (some 6) false,
       RAtom.closeG]
      ⟨some 'D', 'E' :: ' ' :: digits, none, none⟩ = some ⟨digits.get? 5, [], none, some digits⟩ :=
    runA_lit_stepS 5 'e' 'E' _ _ _ _ rfl (by decide) h5
  have h7 : runA 7
      [RAtom.cls (fun d => d.toLower == 'd'.toLower) 1 (some 1) false,
       RAtom.cls (fun d => d.toLower == 'e'.toLower) 1 (some 1) false,
       RAtom.cls clsColonWs 0 none false,
       RAtom.openG,
       RAtom.cls clsDigit 6 (some 6) false,
       RAtom.closeG]
      ⟨some 'O', 'D' :: 'E' :: ' ' :: digits, none, none⟩ = some ⟨digits.get? 5, [], none, some digits⟩ :=
    runA_lit_stepS 6 'd' 'D' _ _ _ _ rfl (by decide) h6
  have h8 : runA 8
      [RAtom.cls (fun d => d.toLower == 'o'.toLower) 1 (some 1) false,
       RAtom.cls (fun d => d.toLower == 'd'.toLower) 1 (some 1) false,
       RAtom.cls (fun d => d.toLower == 'e'.toLower) 1 (some 1) false,
       RAtom.cls clsColonWs 0 none false,
       RAtom.openG,
       RAtom.cls clsDigit 6 (some 6) false,
       RAtom.closeG]
      ⟨some 'C', 'O' :: 'D' :: 'E' :: ' ' :: digits, none, none⟩ = some ⟨digits.get? 5, [], none, some digits⟩ :=
    runA_lit_stepS 7 'o' 'O' _ _ _ _ rfl (by decide) h7
  have h9 : runA 9
      [RAtom.cls (fun d => d.toLower == 'c'.toLower) 1 (some 1) false,
       RAtom.cls (fun d => d.toLower == 'o'.toLower) 1 (some 1) false,
       RAtom.cls (fun d => d.toLower == 'd'.toLower) 1 (some 1) false,
       RAtom.cls (fun d => d.toLower == 'e'.toLower) 1 (some 1) false,
       RAtom.cls clsColonWs 0 none false,
       RAtom.openG,
       RAtom.cls clsDigit 6 (some 6) false,
       RAtom.closeG]
      ⟨some ' ', 'C' :: 'O' :: 'D' :: 'E' :: ' ' :: digits, none, none⟩ = some ⟨digits.get? 5, [], none, some digits⟩ :=
    runA_lit_stepS 8 'c' 'C' _ _ _ _ rfl (by decide) h8
  have h10 : runA 10
      [RAtom.cls clsUnderscoreWs 0 none false,
       RAtom.cls (fun d => d.toLower == 'c'.toLower) 1 (some 1) false,
       RAtom.cls (fun d => d.toLower == 'o'.toLower) 1 (some 1) false,
       RAtom.cls (fun d => d.toLower == 'd'.toLower) 1 (some 1) false,
       RAtom.cls (fun d => d.toLower == 'e'.toLower) 1 (some 1) false,
       RAtom.cls clsColonWs 0 none false,
       RAtom.openG,
       RAtom.cls clsDigit 6 (some 6) false,
       RAtom.closeG]
      ⟨some 'N', ' ' :: 'C' :: 'O' :: 'D' :: 'E' :: ' ' :: digits, none, none⟩ = some ⟨digits.get? 5, [], none, some digits⟩ :=
    runA_cls01_step 9 clsUnderscoreWs none _ _ _ (by rfl) (Or.inl rfl) h9
  have h11 : runA 11
      [RAtom.cls (fun d => d.toLower == 'n'.toLower) 1 (some 1) false,
       RAtom.cls clsUnderscoreWs 0 none false,
       RAtom.cls (fun d => d.toLower == 'c'.toLower) 1 (some 1) false,
       RAtom.cls (fun d => d.toLower == 'o'.toLower) 1 (some 1) false,
       RAtom.cls (fun d => d.toLower == 'd'.toLower) 1 (some 1) false,
       RAtom.cls (fun d => d.toLower == 'e'.toLower) 1 (some 1) false,
       RAtom.cls clsColonWs 0 none false,
       RAtom.openG,
       RAtom.cls clsDigit 6 (some 6) false,
       RAtom.closeG]
      ⟨some 'O', 'N' :: ' ' :: 'C' :: 'O' :: 'D' :: 'E' :: ' ' :: digits, none, none⟩ = some ⟨digits.get? 5, [], none, some digits⟩ :=
    runA_lit_stepS 10 'n' 'N' _ _ _ _ rfl (by decide) h10
  have h12 : runA 12
      [RAtom.cls (fun d => d.toLower == 'o'.toLower) 1 (some 1) false,
       RAtom.cls (fun d => d.toLower == 'n'.toLower) 1 (some 1) false,
       RAtom.cls clsUnderscoreWs 0 none false,
       RAtom.cls (fun d => d.toLower == 'c'.toLower) 1 (some 1) false,
       RAtom.cls (fun d => d.toLower == 'o'.toLower) 1 (some 1) false,
       RAtom.cls (fun d => d.toLower == 'd'.toLower) 1 (some 1) false,
       RAtom.cls (fun d => d.toLower == 'e'.toLower) 1 (some 1) false,
       RAtom.cls clsColonWs 0 none false,
       RAtom.openG,
       RAtom.cls clsDigit 6 (some 6) false,
       RAtom.closeG]
      ⟨some 'I', 'O' :: 'N' :: ' ' :: 'C' :: 'O' :: 'D' :: 'E' :: ' ' :: digits, none, none⟩ = some ⟨digits.get? 5, [], none, some digits⟩ :=
    runA_lit_stepS 11 'o' 'O' _ _ _ _ rfl (by decide) h11
  have h13 : runA 13
      [RAtom.cls (fun d => d.toLower == 'i'.toLower) 1 (some 1) false,
       RAtom.cls (fun d => d.toLower == 'o'.toLower) 1 (some 1) false,
       RAtom.cls (fun d => d.toLower == 'n'.toLower) 1 (some 1) false,
       RAtom.cls clsUnderscoreWs 0 none false,
       RAtom.cls (fun d => d.toLower == 'c'.toLower) 1 (some 1) false,
       RAtom.cls (fun d => d.toLower == 'o'.toLower) 1 (some 1) false,
       RAtom.cls (fun d => d.toLower == 'd'.toLower) 1 (some 1) false,
       RAtom.cls (fun d => d.toLower == 'e'.toLower) 1 (some 1) false,
       RAtom.cls clsColonWs 0 none false,
       RAtom.openG,
       RAtom.cls clsDigit 6 (some 6) false,
       RAtom.closeG]
      ⟨some 'T', 'I' :: 'O' :: 'N' :: ' ' :: 'C' :: 'O' :: 'D' :: 'E' :: ' ' :: digits, none, none⟩ = some ⟨digits.get? 5, [], none, some digits⟩ :=
    runA_lit_stepS 12 'i' 'I' _ _ _ _ rfl (by decide) h12
  have h14 : runA 14
      [RAtom.cls (fun d => d.toLower == 't'.toLower) 1 (some 1) false,
       RAtom.cls (fun d => d.toLower == 'i'.toLower) 1 (some 1) false,
       RAtom.cls (fun d => d.toLower == 'o'.toLower) 1 (some 1) false,
       RAtom.cls (fun d => d.toLower == 'n'.toLower) 1 (some 1) false,
       RAtom.cls clsUnderscoreWs 0 none false,
       RAtom.cls (fun d => d.toLower == 'c'.toLower) 1 (some 1) false,
       RAtom.cls (fun d => d.toLower == 'o'.toLower) 1 (some 1) false,
       RAtom.cls (fun d => d.toLower == 'd'.toLower) 1 (some 1) false,
       RAtom.cls (fun d => d.toLower == 'e'.toLower) 1 (some 1) false,
       RAtom.cls clsColonWs 0 none false,
       RAtom.openG,
       RAtom.cls clsDigit 6 (some 6) false,
       RAtom.closeG]
      ⟨some 'C', 'T' :: 'I' :: 'O' :: 'N' :: ' ' :: 'C' :: 'O' :: 'D' :: 'E' :: ' ' :: digits, none, none⟩ = some ⟨digits.get? 5, [], none, some digits⟩ :=
    runA_lit_stepS 13 't' 'T' _ _ _ _ rfl (by decide) h13
  have h15 : runA 15
      [RAtom.cls (fun d => d.toLower == 'c'.toLower) 1 (some 1) false,
       RAtom.cls (fun d => d.toLower == 't'.toLower) 1 (some 1) false,
       RAtom.cls (fun d => d.toLower == 'i'.toLower) 1 (some 1) false,
       RAtom.cls (fun d => d.toLower == 'o'.toLower) 1 (some 1) false,
       RAtom.cls (fun d => d.toLower == 'n'.toLower) 1 (some 1) false,
       RAtom.cls clsUnderscoreWs 0 none false,
       RAtom.cls (fun d => d.toLower == 'c'.toLower) 1 (some 1) false,
       RAtom.cls (fun d => d.toLower == 'o'.toLower) 1 (some 1) false,
       RAtom.cls (fun d => d.toLower == 'd'.toLower) 1 (some 1) false,
       RAtom.cls (fun d => d.toLower == 'e'.toLower) 1 (some 1) false,
       RAtom.cls clsColonWs 0 none false,
       RAtom.openG,
       RAtom.cls clsDigit 6 (some 6) false,
       RAtom.closeG]
      ⟨some 'E', 'C' :: 'T' :: 'I' :: 'O' :: 'N' :: ' ' :: 'C' :: 'O' :: 'D' :: 'E' :: ' ' :: digits, none, none⟩ = some ⟨digits.get? 5, [], none, some digits⟩ :=
    runA_lit_stepS 14 'c' 'C' _ _ _ _ rfl (by decide) h14
  have h16 : runA 16
      [RAtom.cls (fun d => d.toLower == 'e'.toLower) 1 (some 1) false,
       RAtom.cls (fun d => d.toLower == 'c'.toLower) 1 (some 1) false,
       RAtom.cls (fun d => d.toLower == 't'.toLower) 1 (some 1) false,
       RAtom.cls (fun d => d.toLower == 'i'.toLower) 1 (some 1) false,
       RAtom.cls (fun d => d.toLower == 'o'.toLower) 1 (some 1) false,
       RAtom.cls (fun d => d.toLower == 'n'.toLower) 1 (some 1) false,
       RAtom.cls clsUnderscoreWs 0 none false,
       RAtom.cls (fun d => d.toLower == 'c'.toLower) 1 (some 1) false,
       RAtom.cls (fun d => d.toLower == 'o'.toLower) 1 (some 1) false,
       RAtom.cls (fun d => d.toLower == 'd'.toLower) 1 (some 1) false,
       RAtom.cls (fun d => d.toLower == 'e'.toLower) 1 (some 1) false,
       RAtom.cls clsColonWs 0 none false,
       RAtom.openG,
       RAtom.cls clsDigit 6 (some 6) false,
       RAtom.closeG]
      ⟨some 'L', 'E' :: 'C' :: 'T' :: 'I' :: 'O' :: 'N' :: ' ' :: 'C' :: 'O' :: 'D' :: 'E' :: ' ' :: digits, none, none⟩ = some ⟨digits.get? 5, [], none, some digits⟩ :=
    runA_lit_stepS 15 'e' 'E' _ _ _ _ rfl (by decide) h15
  have h17 : runA 17
      [RAtom.cls (fun d => d.toLower == 'l'.toLower) 1 (some 1) false,
       RAtom.cls (fun d => d.toLower == 'e'.toLower) 1 (some 1) false,
       RAtom.cls (fun d => d.toLower == 'c'.toLower) 1 (some 1) false,
       RAtom.cls (fun d => d.toLower == 't'.toLower) 1 (some 1) false,
       RAtom.cls (fun d => d.toLower == 'i'.toLower) 1 (some 1) false,
       RAtom.cls (fun d => d.toLower == 'o'.toLower) 1 (some 1) false,
       RAtom.cls (fun d => d.toLower == 'n'.toLower) 1 (some 1) false,
       RAtom.cls clsUnderscoreWs 0 none false,
       RAtom.cls (fun d => d.toLower == 'c'.toLower) 1 (some 1) false,
       RAtom.cls (fun d => d.toLower == 'o'.toLower) 1 (some 1) false,
       RAtom.cls (fun d => d.toLower == 'd'.toLower) 1 (some 1) false,
       RAtom.cls (fun d => d.toLower == 'e'.toLower) 1 (some 1) false,
       RAtom.cls clsColonWs 0 none false,
       RAtom.openG,
       RAtom.cls clsDigit 6 (some 6) false,
       RAtom.closeG]
      ⟨some 'L', 'L' :: 'E' :: 'C' :: 'T' :: 'I' :: 'O' :: 'N' :: ' ' :: 'C' :: 'O' :: 'D' :: 'E' :: ' ' :: digits, none, none⟩ = some ⟨digits.get? 5, [], none, some digits⟩ :=
    runA_lit_stepS 16 'l' 'L' _ _ _ _ rfl (by decide) h16
  have h18 : runA 18
      [RAtom.cls (fun d => d.toLower == 'l'.toLower) 1 (some 1) false,
       RAtom.cls (fun d => d.toLower == 'l'.toLower) 1 (some 1) false,
       RAtom.cls (fun d => d.toLower == 'e'.toLower) 1 (some 1) false,
       RAtom.cls (fun d => d.toLower == 'c'.toLower) 1 (some 1) false,
       RAtom.cls (fun d => d.toLower == 't'.toLower) 1 (some 1) false,
       RAtom.cls (fun d => d.toLower == 'i'.toLower) 1 (some 1) false,
       RAtom.cls (fun d => d.toLower == 'o'.toLower) 1 (some 1) false,
       RAtom.cls (fun d => d.toLower == 'n'.toLower) 1 (some 1) false,
       RAtom.cls clsUnderscoreWs 0 none false,
       RAtom.cls (fun d => d.toLower == 'c'.toLower) 1 (some 1) false,
       RAtom.cls (fun d => d.toLower == 'o'.toLower) 1 (some 1) false,
       RAtom.cls (fun d => d.toLower == 'd'.toLower) 1 (some 1) false,
       RAtom.cls (fun d => d.toLower == 'e'.toLower) 1 (some 1) false,
       RAtom.cls clsColonWs 0 none false,
       RAtom.openG,
       RAtom.cls clsDigit 6 (some 6) false,
       RAtom.closeG]
      ⟨some 'O', 'L' :: 'L' :: 'E' :: 'C' :: 'T' :: 'I' :: 'O' :: 'N' :: ' ' :: 'C' :: 'O' :: 'D' :: 'E' :: ' ' :: digits, none, none⟩ = some ⟨digits.get? 5, [], none, some digits⟩ :=
    runA_lit_stepS 17 'l' 'L' _ _ _ _ rfl (by decide) h17
  have h19 : runA 19
      [RAtom.cls (fun d => d.toLower == 'o'.toLower) 1 (some 1) false,
       RAtom.cls (fun d => d.toLower == 'l'.toLower) 1 (some 1) false,
       RAtom.cls (fun d => d.toLower == 'l'.toLower) 1 (some 1) false,
       RAtom.cls (fun d => d.toLower == 'e'.toLower) 1 (some 1) false,
       RAtom.cls (fun d => d.toLower == 'c'.toLower) 1 (some 1) false,
       RAtom.cls (fun d => d.toLower == 't'.toLower) 1 (some 1) false,
       RAtom.cls (fun d => d.toLower == 'i'.toLower) 1 (some 1) false,
       RAtom.cls (fun d => d.toLower == 'o'.toLower) 1 (some 1) false,
       RAtom.cls (fun d => d.toLower == 'n'.toLower) 1 (some 1) false,
       RAtom.cls clsUnderscoreWs 0 none false,
       RAtom.cls (fun d => d.toLower == 'c'.toLower) 1 (some 1) false,
       RAtom.cls (fun d => d.toLower == 'o'.toLower) 1 (some 1) false,
       RAtom.cls (fun d => d.toLower == 'd'.toLower) 1 (some 1) false,
       RAtom.cls (fun d => d.toLower == 'e'.toLower) 1 (some 1) false,
       RAtom.cls clsColonWs 0 none false,
       RAtom.openG,
       RAtom.cls clsDigit 6 (some 6) false,
       RAtom.closeG]
      ⟨some 'C', 'O' :: 'L' :: 'L' :: 'E' :: 'C' :: 'T' :: 'I' :: 'O' :: 'N' :: ' ' :: 'C' :: 'O' :: 'D' :: 'E' :: ' ' :: digits, none, none⟩ = some ⟨digits.get? 5, [], none, some digits⟩ :=
    runA_lit_stepS 18 'o' 'O' _ _ _ _ rfl (by decide) h18
  have h20 : runA 20
      [RAtom.cls (fun d => d.toLower == 'c'.toLower) 1 (some 1) false,
       RAtom.cls (fun d => d.toLower == 'o'.toLower) 1 (some 1) false,
       RAtom.cls (fun d => d.toLower == 'l'.toLower) 1 (some 1) false,
       RAtom.cls (fun d => d.toLower == 'l'.toLower) 1 (some 1) false,
       RAtom.cls (fun d => d.toLower == 'e'.toLower) 1 (some 1) false,
       RAtom.cls (fun d => d.toLower == 'c'.toLower) 1 (some 1) false,
       RAtom.cls (fun d => d.toLower == 't'.toLower) 1 (some 1) false,
       RAtom.cls (fun d => d.toLower == 'i'.toLower) 1 (some 1) false,
       RAtom.cls (fun d => d.toLower == 'o'.toLower) 1 (some 1) false,
       RAtom.cls (fun d => d.toLower == 'n'.toLower) 1 (some 1) false,
       RAtom.cls clsUnderscoreWs 0 none false,
       RAtom.cls (fun d => d.toLower == 'c'.toLower) 1 (some 1) false,
       RAtom.cls (fun d => d.toLower == 'o'.toLower) 1 (some 1) false,
       RAtom.cls (fun d => d.toLower == 'd'.toLower) 1 (some 1) false,
       RAtom.cls (fun d => d.toLower == 'e'.toLower) 1 (some 1) false,
       RAtom.cls clsColonWs 0 none false,
       RAtom.openG,
       RAtom.cls clsDigit 6 (some 6) false,
       RAtom.closeG]
      ⟨none, 'C' :: 'O' :: 'L' :: 'L' :: 'E' :: 'C' :: 'T' :: 'I' :: 'O' :: 'N' :: ' ' :: 'C' :: 'O' :: 'D' :: 'E' :: ' ' :: digits, none, none⟩ = some ⟨digits.get? 5, [], none, some digits⟩ :=
    runA_lit_stepS 19 'c' 'C' _ _ _ _ rfl (by decide) h19
  have hrt : runTop
      (ciLit "collection" ++ [RAtom.cls clsUnderscoreWs 0 none false] ++ ciLit "code" ++
       [RAtom.cls clsColonWs 0 none false,
        RAtom.openG, RAtom.cls clsDigit 6 (some 6) false, RAtom.closeG])
      ⟨none, 'C' :: 'O' :: 'L' :: 'L' :: 'E' :: 'C' :: 'T' :: 'I' :: 'O' :: 'N' :: ' ' :: 'C' :: 'O' :: 'D' :: 'E' :: ' ' :: digits, none, none⟩ = some ⟨digits.get? 5, [], none, some digits⟩ := h20
  have hscan : scanMatch
      (ciLit "collection" ++ [RAtom.cls clsUnderscoreWs 0 none false] ++ ciLit "code" ++
       [RAtom.cls clsColonWs 0 none false,
        RAtom.openG, RAtom.cls clsDigit 6 (some 6) false, RAtom.closeG])
      none ('C' :: 'O' :: 'L' :: 'L' :: 'E' :: 'C' :: 'T' :: 'I' :: 'O' :: 'N' :: ' ' :: 'C' :: 'O' :: 'D' :: 'E' :: ' ' :: digits)
      = some ('C' :: 'O' :: 'L' :: 'L' :: 'E' :: 'C' :: 'T' :: 'I' :: 'O' :: 'N' :: ' ' :: 'C' :: 'O' :: 'D' :: 'E' :: ' ' :: digits,
          ⟨digits.get? 5, [], none, some digits⟩) := by
    rw [scanMatch, hrt]
  have hjm : jsMatch1
      (ciLit "collection" ++ [RAtom.cls clsUnderscoreWs 0 none false] ++ ciLit "code" ++
       [RAtom.cls clsColonWs 0 none false,
        RAtom.openG, RAtom.cls clsDigit 6 (some 6) false, RAtom.closeG])
      ('C' :: 'O' :: 'L' :: 'L' :: 'E' :: 'C' :: 'T' :: 'I' :: 'O' :: 'N' :: ' ' :: 'C' :: 'O' :: 'D' :: 'E' :: ' ' :: digits) = some digits := by
    unfold jsMatch1
    rw [hscan, hdsh]
    simp
  unfold extractPickupCode pickupCodePatterns runPatterns
  rw [show (String.mk ("COLLECTION CODE ".data ++ digits)).data
    = 'C' :: 'O' :: 'L' :: 'L' :: 'E' :: 'C' :: 'T' :: 'I' :: 'O' :: 'N' :: ' ' :: 'C' :: 'O' :: 'D' :: 'E' :: ' ' :: digits from rfl]
  simp only [Bool.false_eq_true, if_false, hjm]

/-! ## C7 -/

/-- C7 counterexample.  `"Ref JJD0002233573349014 end"` contains a valid
UK-style tracking number (3 letters, 16 digits) in a bare-text context, yet
the extractor returns nothing: the two generic patterns carry the JS global
flag, under which `text.match` returns whole-match strings, so the source's
`match[1]` is the second occurrence rather than the capture group.  For the
same reason, with two bare occurrences the extractor returns the second one,
not the first match. -/
theorem tracking_extractor_counterexample :
    extractTrackingNumber "Ref JJD0002233573349014 end" = none ∧
    extractTrackingNumber "JJD0002233573349014 MD000000867865453"
      = some "MD000000867865453" := by
  decide

/-- C7 (amended): for every well-formed UK-style tracking number — 2-3
uppercase letters followed by 12-21 digits — the "PARCEL NO." label context
yields exactly that number; the other representative explicit-label and URL
contexts return the embedded tracking number, uppercased and
whitespace-stripped, and label patterns win over bare generic ones.  The two
bare generic patterns, however, are global regexes whose `match[1]` is the
second whole match: a bare tracking number is extracted only when the generic
pattern matches at least twice, and then the SECOND occurrence is returned;
moreover the generic patterns carry no `i` flag, so a lowercase bare tracking
number is never matched, even when doubled. -/
theorem tracking_extractor_amended (letters digits : List Char)
    (hl2 : 2 ≤ letters.length) (hl3 : letters.length ≤ 3)
    (hd12 : 12 ≤ digits.length) (hd21 : digits.length ≤ 21)
    (hup : ∀ c ∈ letters, c.isUpper = true)
    (hdig : ∀ c ∈ digits, c.isDigit = true) :
    extractTrackingNumber (String.mk ("PARCEL NO. ".data ++ (letters ++ digits)))
      = some (String.mk (letters ++ digits)) ∧
    extractTrackingNumber "Parcel number md000000867865453" = some "MD000000867865453" ∧
    extractTrackingNumber "Tracking number: ABC123456789XYZ987654"
      = some "ABC123456789XYZ987654" ∧
    extractTrackingNumber "see /tracking/ABCD1234EFGH5678IJKL list"
      = some "ABCD1234EFGH5678IJKL" ∧
    extractTrackingNumber
        "MD000000867865453 MD000000867865453 tracking number: ABC123456789XYZ987654"
      = some "ABC123456789XYZ987654" ∧
    extractTrackingNumber "JJD0002233573349014 MD000000867865453"
      = some "MD000000867865453" ∧
    extractTrackingNumber "Ref JJD0002233573349014 end" = none ∧
    extractTrackingNumber "jjd0002233573349014 jjd0002233573349014" = none :=
  ⟨extractTrackingNumber_parcel_label letters digits hl2 hl3 hd12 hd21 hup hdig, by decide⟩

/-- Witness for the amended C7 theorem at the concrete tracking number
JJD0002233573349014 (letters JJD, 16 digits). -/
theorem tracking_extractor_amended_witness :
    extractTrackingNumber (String.mk ("PARCEL NO. ".data ++
        (['J', 'J', 'D'] ++
         ['0', '0', '0', '2', '2', '3', '3', '5', '7', '3', '3', '4', '9', '0', '1', '4'])))
      = some (String.mk (['J', 'J', 'D'] ++
         ['0', '0', '0', '2', '2', '3', '3', '5', '7', '3', '3', '4', '9', '0', '1', '4'])) ∧
    extractTrackingNumber "Parcel number md000000867865453" = some "MD000000867865453" ∧
    extractTrackingNumber "Tracking number: ABC123456789XYZ987654"
      = some "ABC123456789XYZ987654" ∧
    extractTrackingNumber "see /tracking/ABCD1234EFGH5678IJKL list"
      = some "ABCD1234EFGH5678IJKL" ∧
    extractTrackingNumber
        "MD000000867865453 MD000000867865453 tracking number: ABC123456789XYZ987654"
      = some "ABC123456789XYZ987654" ∧
    extractTrackingNumber "JJD0002233573349014 MD000000867865453"
      = some "MD000000867865453" ∧
    extractTrackingNumber "Ref JJD0002233573349014 end" = none ∧
    extractTrackingNumber "jjd0002233573349014 jjd0002233573349014" = none :=
  tracking_extractor_amended ['J', 'J', 'D']
    ['0', '0', '0', '2', '2', '3', '3', '5', '7', '3', '3', '4', '9', '0', '1', '4']
    (by decide) (by decide) (by decide) (by decide) (by decide) (by decide)

/-! ## C8 -/

/-- C8 counterexample.  `"Meet at 247089"` has no label but contains a bare
6-digit run; the claim says the extractor falls back to the first bare
6-digit run, yet it returns nothing — the fallback pattern is a global regex,
so `match[1]` is the second whole match, absent here.  With two bare runs the
extractor returns the second, not the first. -/
theorem pickup_extractor_counterexample :
    extractPickupCode "Meet at 247089" = none ∧
    extractPickupCode "111111 222222" = some "222222" := by
  decide

/-- C8 (amended): for every 6-digit code, the "COLLECTION CODE" label
context yields exactly that code; the other labelled patterns ("pickup
code", bare "code", "your code") likewise return the labelled 6-digit code;
when no label matches, the bare fallback — a global regex whose `match[1]`
is the second whole match — returns the second bare 6-digit run when at
least two exist and nothing otherwise; with no 6-digit run at all the
extractor returns `none` (it is a total function and cannot throw). -/
theorem pickup_extractor_amended (digits : List Char)
    (hlen : digits.length = 6)
    (hdig : ∀ c ∈ digits, c.isDigit = true) :
    extractPickupCode (String.mk ("COLLECTION CODE ".data ++ digits))
      = some (String.mk digits) ∧
    extractPickupCode "Pickup code: 123456" = some "123456" ∧
    extractPickupCode "Your code: 654321" = some "654321" ∧
    extractPickupCode "999999 888888 COLLECTION CODE 247089" = some "247089" ∧
    extractPickupCode "Meet at 247089" = none ∧
    extractPickupCode "111111 222222" = some "222222" ∧
    extractPickupCode "no digits here" = none :=
  ⟨extractPickupCode_collection_label digits hlen hdig, by decide⟩

/-- Witness for the amended C8 theorem at the concrete code 247089. -/
theorem pickup_extractor_amended_witness :
    extractPickupCode (String.mk ("COLLECTION CODE ".data ++ ['2', '4', '7', '0', '8', '9']))
      = some (String.mk ['2', '4', '7', '0', '8', '9']) ∧
    extractPickupCode "Pickup code: 123456" = some "123456" ∧
    extractPickupCode "Your code: 654321" = some "654321" ∧
    extractPickupCode "999999 888888 COLLECTION CODE 247089" = some "247089" ∧
    extractPickupCode "Meet at 247089" = none ∧
    extractPickupCode "111111 222222" = some "222222" ∧
    extractPickupCode "no digits here" = none :=
  pickup_extractor_amended ['2', '4', '7', '0', '8', '9'] (by decide) (by decide)

/-! ## C9 (sequential idealization) -/

/-- Under the sequential idealization of `processEmails`, the uid list handed
to the single batch mark-as-read operation contains a uid exactly when some
message of the batch carries it (truthily) and that message's outcome,
evaluated against the registry as it stood after the messages before it, was
true ("processed" or "already processed"); skipped messages contribute
nothing.  The real code collects these uids in asynchronous body handlers and
marks them in the fetch end handler, so whether every decision has completed
by marking time is an event-ordering question outside this model. -/
theorem processEmails_mark_iff (adapter : TelegramCall → Bool) (now : Nat) (acct : String)
    (msgs : List EmailMsg) (reg : Registry) (u : Nat) :
    u ∈ (processEmails adapter now acct msgs reg).2.2 ↔
      ∃ pre msg post, msgs = pre ++ msg :: post ∧ msg.uid = some u ∧ u ≠ 0 ∧
        (processEmail adapter now msg.text msg.html (some acct)
          (processEmails adapter now acct pre reg).1).success = true := by
  induction msgs generalizing reg with
  | nil => simp [processEmails]
  | cons m rest ih =>
    rw [processEmails]
    simp only [List.mem_append]
    constructor
    · rintro (h | h)
      · refine ⟨[], m, rest, rfl, ?_⟩
        rcases hsp : ((processEmail adapter now m.text m.html (some acct) reg).success
            && uidTruthy m.uid) with _ | _
        · rw [hsp] at h
          simp at h
        · rw [hsp] at h
          simp at h
          rcases Bool.and_eq_true .. |>.mp hsp with ⟨hsuc, hut⟩
          rcases hmu : m.uid with _ | v
          · rw [hmu] at hut
            simp [uidTruthy] at hut
          · rw [hmu] at hut h
            simp [uidTruthy] at hut
            simp at h
            subst h
            exact ⟨rfl, hut, by simpa [processEmails] using hsuc⟩
      · obtain ⟨pre, msg, post, heq, hu, hnz, hsuc⟩ := ih
          ((processEmail adapter now m.text m.html (some acct) reg).registry) |>.mp h
        refine ⟨m :: pre, msg, post, by rw [heq]; rfl, hu, hnz, ?_⟩
        rw [show (processEmails adapter now acct (m :: pre) reg).1
          = (processEmails adapter now acct pre
              (processEmail adapter now m.text m.html (some acct) reg).registry).1 from rfl]
        exact hsuc
    · rintro ⟨pre, msg, post, heq, hu, hnz, hsuc⟩
      rcases pre with _ | ⟨p, pre2⟩
      · rcases List.cons.injEq .. |>.mp heq with ⟨hm, hrest⟩
        left
        subst hm
        have hsuc2 : (processEmail adapter now m.text m.html (some acct) reg).success
            = true := by simpa [processEmails] using hsuc
        rw [hsuc2, hu]
        simp [uidTruthy, hnz]
      · rcases List.cons.injEq .. |>.mp heq with ⟨hm, hrest⟩
        right
        subst hm
        refine ih ((processEmail adapter now m.text m.html (some acct) reg).registry)
          |>.mpr ⟨pre2, msg, post, hrest, hu, hnz, ?_⟩
        rw [show (processEmails adapter now acct (m :: pre2) reg).1
          = (processEmails adapter now acct pre2
              (processEmail adapter now m.text m.html (some acct) reg).registry).1
          from rfl] at hsuc
        exact hsuc
